import Mathlib

/-!
TappSwap: a shallow embedding of the swap execution engine

The definitions below follow `src/modules.js` (class `TappSwapBot` and the
module-level helpers) and `src/main.js` (the two run modes).

Modelling conventions

* JavaScript numbers are exact rationals (`ℚ`); atomic amounts produced by
  `Math.floor` are integers (`ℤ`).  Rounding of IEEE doubles is not modelled.
* Every awaited upstream call (chain SDK, DEX SDK) is an oracle in `Env`.
  The oracle is indexed by `Conn.tick`, the number of upstream calls made so
  far, so that successive calls may answer differently.
* A thrown exception is the `ApiResult.error` alternative; it carries the
  optional `status` field that the source inspects (`error.status === 429`).
* `World` carries the process-wide connection state together with ghost
  logs (requests sent to the quoter, payloads built, payloads submitted,
  directions of the swap calls).  The logs are instrumentation only: no
  definition ever reads them.
* The two recursive retry methods are written as a body whose recursive
  call is a parameter, iterated on an explicit budget initialised to
  `3 - retryCount`; the lemmas `getBalance_eq` and `submitTransaction_eq`
  show that they satisfy the recursion equations of the source, so the
  budget is never exhausted.
-/

namespace TappSwap

/-! ## Upstream results and configuration -/

/-- Outcome of an awaited upstream call: a value, or a thrown error carrying
its optional HTTP `status`. -/
inductive ApiResult (α : Type) where
  | ok (value : α)
  | error (status : Option Nat)
deriving DecidableEq, Repr

/-- The fields of `config.json` that the modelled code reads. -/
structure Config where
  rpcUrls : Option (List String)
  rpcUrl : Option String
  initialAmount : ℚ
  slippageTolerance : ℚ
  maxLossPercentage : ℚ
  testAmount : ℚ
  logDetailedInfo : Bool
deriving DecidableEq, Repr

/-- The expression `CONFIG.rpcUrls || [CONFIG.rpcUrl].filter(Boolean)`: an
array (even an empty one) is truthy, an empty string is dropped by the
filter. -/
def rpcUrlsOf (cfg : Config) : List String :=
  match cfg.rpcUrls with
  | some urls => urls
  | none =>
    match cfg.rpcUrl with
    | some url => if url = "" then [] else [url]
    | none => []

/-- Process-wide connection state: `currentRpcIndex` of the source, the
number of upstream calls made so far, and a ghost counter of the
invocations of `switchToNextRpc`. -/
structure Conn where
  currentRpcIndex : Nat
  tick : Nat
  rpcSwitches : Nat
deriving DecidableEq, Repr

/-- The connection state after one more upstream call. -/
def Conn.next (c : Conn) : Conn :=
  { c with tick := c.tick + 1 }

/-- The rotator `switchToNextRpc`:
`currentRpcIndex = (currentRpcIndex + 1) % rpcUrls.length`.
For an empty list JavaScript yields `NaN`; the model is meant for a
non-empty list.  The call of `initializeServices` that follows rebuilds the
SDK clients for the new endpoint and changes nothing that is modelled. -/
def switchToNextRpc (cfg : Config) (c : Conn) : Conn :=
  { c with
    currentRpcIndex := (c.currentRpcIndex + 1) % (rpcUrlsOf cfg).length
    rpcSwitches := c.rpcSwitches + 1 }

/-! ## Pool, swap request, estimate, payload -/

/-- The resolved pool held in `this.currentPool`. -/
structure Pool where
  poolId : String
  poolType : String
  tokenA : String
  tokenB : String
deriving DecidableEq, Repr

/-- The object `swapParams` built by the two `executeSwap` functions. -/
structure SwapParams where
  poolInfo : Pool
  amountIn : ℤ
  tokenIn : String
  tokenOut : String
  a2b : Bool
deriving DecidableEq, Repr

/-- The object `estimateParams` sent to `tappSDK.Swap.getEstSwapAmount`. -/
structure EstimateParams where
  poolId : String
  a2b : Bool
  field : String
  amount : ℤ
  pair : List Nat
deriving DecidableEq, Repr

/-- The answer of the quoting service.  Every field may be absent; `error`
holds the message of the explicit error object when there is one. -/
structure QuoteResult where
  error : Option String
  amountOut : Option ℚ
  estAmount : Option ℚ
  amountIn : Option ℚ
  amount : Option ℚ
  priceImpact : Option ℚ
  fee : Option ℚ
deriving DecidableEq, Repr

/-- The object `estimate` returned by `estimateSwap`. -/
structure SwapEstimate where
  amountOut : ℚ
  amountIn : ℚ
  priceImpact : ℚ
  fee : ℚ
  minAmountOut : ℤ
deriving DecidableEq, Repr

/-- The argument handed to one of the three payload builders of the SDK
(`swapAMMTransactionPayload`, `swapCLMMTransactionPayload`,
`swapStableTransactionPayload`). -/
inductive Payload where
  | amm (poolId : String) (a2b : Bool) (fixedAmountIn : Bool) (amount0 : ℤ) (amount1 : ℤ)
  | clmm (poolId : String) (amountIn : ℤ) (minAmountOut : ℤ) (a2b : Bool)
      (fixedAmountIn : Bool) (targetSqrtPrice : ℤ)
  | stable (poolId : String) (tokenIn : Nat) (tokenOut : Nat) (amountIn : ℤ) (minAmountOut : ℤ)
deriving DecidableEq, Repr

/-- The input amount encoded in a payload (for an AMM payload the input leg
is `amount0` when `a2b` and `amount1` otherwise). -/
def Payload.inputAmount : Payload → ℤ
  | .amm _ a2b _ amount0 amount1 => if a2b then amount0 else amount1
  | .clmm _ amountIn _ _ _ _ => amountIn
  | .stable _ _ _ amountIn _ => amountIn

/-- One entry of the list returned by `getCurrentFungibleAssetBalances`.
A missing `amount` is falsy like `0` and is represented by `0`. -/
structure FABalance where
  asset_type : String
  amount : Nat
deriving DecidableEq, Repr

/-- The upstream services.  The first argument of every oracle is the tick
at which the call is made. -/
structure Env where
  getAccountAPTAmount : Nat → ApiResult Nat
  getCurrentFungibleAssetBalances : Nat → ApiResult (List FABalance)
  getAccountCoinAmount : Nat → String → ApiResult Nat
  getEstSwapAmount : Nat → EstimateParams → ApiResult (Option QuoteResult)
  submit : Nat → Payload → ApiResult String

/-- Connection state plus the ghost logs. -/
structure World where
  conn : Conn
  quotes : List EstimateParams
  built : List Payload
  submitted : List Payload
  swapCalls : List Bool
deriving DecidableEq, Repr

/-! ## Loss computation -/

/-- The argument objects of `calculateLoss`. -/
structure Balances where
  tokenA : ℚ
  tokenB : ℚ
deriving DecidableEq, Repr

/-- The exported `calculateLoss(initialBalances, currentBalances)`. -/
def calculateLoss (initialBalances currentBalances : Balances) : ℚ :=
  let initialTotal := initialBalances.tokenA + initialBalances.tokenB
  let currentTotal := currentBalances.tokenA + currentBalances.tokenB
  if initialTotal = 0 then 0
  else
    let lossPercentage := ((initialTotal - currentTotal) / initialTotal) * 100
    max 0 lossPercentage

/-! ## Balance resolution -/

/-- The method `String.prototype.includes`. -/
def jsIncludes (s sub : String) : Bool :=
  decide (sub.toList <:+: s.toList)

/-- The part of `getFungibleAssetBalance` that follows the upstream call:
exact match on `asset_type`, then containment in either direction; a found
non-zero amount is scaled by `10 ** 6`, anything else gives `0`. -/
def fungibleAssetAmount (balances : List FABalance) (tokenAddress : String) : ℚ :=
  let tokenBalance :=
    match balances.find? (fun b => b.asset_type == tokenAddress) with
    | some b => some b
    | none =>
      balances.find? (fun b =>
        jsIncludes b.asset_type tokenAddress || jsIncludes tokenAddress b.asset_type)
  match tokenBalance with
  | some b => if b.amount ≠ 0 then (b.amount : ℚ) / 10 ^ 6 else 0
  | none => 0

/-- The method `getFungibleAssetBalance`: one upstream call, whose error is
rethrown, followed by `fungibleAssetAmount`. -/
def getFungibleAssetBalance (env : Env) (tokenAddress : String) (c : Conn) :
    ApiResult ℚ × Conn :=
  match env.getCurrentFungibleAssetBalances c.tick with
  | .error status => (.error status, c.next)
  | .ok balances => (.ok (fungibleAssetAmount balances tokenAddress), c.next)

/-- The method `getCoinBalance`: the coin type is the identifier itself, or
the identifier followed by `::coin::T` when it has no `::` and is not `0x1`;
the amount is scaled by `10 ** 6`.  An upstream error is rethrown. -/
def getCoinBalance (env : Env) (tokenAddress : String) (c : Conn) : ApiResult ℚ × Conn :=
  let coinType :=
    if !jsIncludes tokenAddress "::" && tokenAddress != "0x1" then tokenAddress ++ "::coin::T"
    else tokenAddress
  match env.getAccountCoinAmount c.tick coinType with
  | .error status => (.error status, c.next)
  | .ok balance => (.ok ((balance : ℚ) / 10 ^ 6), c.next)

/-- The test `tokenAddress === '0x1::aptos_coin::AptosCoin' || tokenAddress === '0x1'`. -/
def isNativeToken (tokenAddress : String) : Bool :=
  tokenAddress == "0x1::aptos_coin::AptosCoin" || tokenAddress == "0x1"

/-- The second half of `getBalance`: the coin lookup, whose error is caught
and turned into `0`. -/
def coinFallback (env : Env) (tokenAddress : String) (c : Conn) : ℚ × Conn :=
  match getCoinBalance env tokenAddress c with
  | (.ok coinBalance, c1) => (coinBalance, c1)
  | (.error _, c1) => (0, c1)

/-- The body of `getBalance(tokenAddress, showLogs, retryCount)`; `retry`
stands for the recursive call `this.getBalance(tokenAddress, showLogs,
retryCount + 1)`.  In the native branch an error reaches the outer `catch`,
which returns `0`. -/
def getBalanceBody (env : Env) (cfg : Config) (tokenAddress : String) (retryCount : Nat)
    (retry : Conn → ℚ × Conn) (c : Conn) : ℚ × Conn :=
  if isNativeToken tokenAddress then
    match env.getAccountAPTAmount c.tick with
    | .ok balance => ((balance : ℚ) / 10 ^ 8, c.next)
    | .error _ => (0, c.next)
  else
    match getFungibleAssetBalance env tokenAddress c with
    | (.ok faBalance, c1) =>
      if faBalance > 0 then (faBalance, c1) else coinFallback env tokenAddress c1
    | (.error status, c1) =>
      if status = some 429 ∧ retryCount < 3 then retry (switchToNextRpc cfg c1)
      else coinFallback env tokenAddress c1

/-- The recursion of `getBalance` on an explicit budget of recursive calls. -/
def getBalanceBudget (env : Env) (cfg : Config) (tokenAddress : String) :
    Nat → Nat → Conn → ℚ × Conn
  | 0, retryCount, c =>
    getBalanceBody env cfg tokenAddress retryCount (fun c1 => (0, c1)) c
  | budget + 1, retryCount, c =>
    getBalanceBody env cfg tokenAddress retryCount
      (getBalanceBudget env cfg tokenAddress budget (retryCount + 1)) c

/-- The method `getBalance(tokenAddress, showLogs, retryCount)`.  A recursive
call is made only while `retryCount < 3`, so a budget of `3 - retryCount`
recursive calls is never exhausted (`getBalance_eq`). -/
def getBalance (env : Env) (cfg : Config) (tokenAddress : String) (retryCount : Nat)
    (c : Conn) : ℚ × Conn :=
  getBalanceBudget env cfg tokenAddress (3 - retryCount) retryCount c

/-! ## Quote, payload construction, submission -/

/-- The operator `a || b` on two optional numbers: `a` when it is present
and non-zero, otherwise `b`. -/
def jsOr (a b : Option ℚ) : Option ℚ :=
  match a with
  | some x => if x = 0 then b else some x
  | none => b

/-- The operator `a || d` whose right operand is a number. -/
def jsOrElse (a : Option ℚ) (d : ℚ) : ℚ :=
  match a with
  | some x => if x = 0 then d else x
  | none => d

/-- The world with a new connection state (after a balance query or an
endpoint rotation): the logs are untouched. -/
def World.withConn (w : World) (c : Conn) : World :=
  { w with conn := c }

/-- The world after a request to the quoter. -/
def World.logQuote (w : World) (p : EstimateParams) : World :=
  { w with conn := w.conn.next, quotes := w.quotes ++ [p] }

/-- The method `estimateSwap(params)`.  A thrown error, a `null` result
(reading `result.amountOut` then throws), an explicit error object and an
absent output amount all give `null`. -/
def estimateSwap (env : Env) (cfg : Config) (params : SwapParams) (w : World) :
    Option SwapEstimate × World :=
  let estimateParams : EstimateParams :=
    { poolId := params.poolInfo.poolId
      a2b := params.a2b
      field := "input"
      amount := params.amountIn
      pair := [0, 1] }
  let w1 := w.logQuote estimateParams
  match env.getEstSwapAmount w.conn.tick estimateParams with
  | .error _ => (none, w1)
  | .ok none => (none, w1)
  | .ok (some result) =>
    if result.error.isSome then (none, w1)
    else
      match jsOr result.amountOut result.estAmount with
      | none => (none, w1)
      | some estimatedAmountOut =>
        let slippageMultiplier := 1 - cfg.slippageTolerance / 100
        let minAmountOut := ⌊estimatedAmountOut * slippageMultiplier⌋
        (some
          { amountOut := estimatedAmountOut
            amountIn := jsOrElse (jsOr result.amountIn result.amount) params.amountIn
            priceImpact := jsOrElse result.priceImpact 0
            fee := jsOrElse result.fee 0
            minAmountOut := minAmountOut }, w1)

/-- The method `createAMMSwapPayload`. -/
def createAMMSwapPayload (params : SwapParams) (estimate : SwapEstimate) : Payload :=
  .amm params.poolInfo.poolId params.a2b true
    (if params.a2b then params.amountIn else estimate.minAmountOut)
    (if params.a2b then estimate.minAmountOut else params.amountIn)

/-- The method `createCLMMSwapPayload`. -/
def createCLMMSwapPayload (params : SwapParams) (estimate : SwapEstimate) : Payload :=
  .clmm params.poolInfo.poolId params.amountIn estimate.minAmountOut params.a2b true 0

/-- The method `createStableSwapPayload`. -/
def createStableSwapPayload (params : SwapParams) (estimate : SwapEstimate) : Payload :=
  .stable params.poolInfo.poolId (if params.a2b then 0 else 1) (if params.a2b then 1 else 0)
    params.amountIn estimate.minAmountOut

/-- The world after one submission attempt (the `try` block of
`submitTransaction`: build, sign and submit, wait for finality). -/
def World.logSubmit (w : World) (payload : Payload) : World :=
  { w with conn := w.conn.next, submitted := w.submitted ++ [payload] }

/-- The body of `submitTransaction(payload, retryCount)`; `retry` stands for
the recursive call `this.submitTransaction(payload, retryCount + 1)`. -/
def submitTransactionBody (env : Env) (cfg : Config) (payload : Payload) (retryCount : Nat)
    (retry : World → Option String × World) (w : World) : Option String × World :=
  match env.submit w.conn.tick payload with
  | .ok hash => (some hash, w.logSubmit payload)
  | .error status =>
    if status = some 429 ∧ retryCount < 3 then
      retry ((w.logSubmit payload).withConn (switchToNextRpc cfg (w.logSubmit payload).conn))
    else (none, w.logSubmit payload)

/-- The recursion of `submitTransaction` on an explicit budget of recursive
calls. -/
def submitTransactionBudget (env : Env) (cfg : Config) (payload : Payload) :
    Nat → Nat → World → Option String × World
  | 0, retryCount, w =>
    submitTransactionBody env cfg payload retryCount (fun w1 => (none, w1)) w
  | budget + 1, retryCount, w =>
    submitTransactionBody env cfg payload retryCount
      (submitTransactionBudget env cfg payload budget (retryCount + 1)) w

/-- The method `submitTransaction(payload, retryCount)`.  A recursive call
is made only while `retryCount < 3`, so a budget of `3 - retryCount`
recursive calls is never exhausted (`submitTransaction_eq`). -/
def submitTransaction (env : Env) (cfg : Config) (payload : Payload) (retryCount : Nat)
    (w : World) : Option String × World :=
  submitTransactionBudget env cfg payload (3 - retryCount) retryCount w

/-- The world after a payload builder has run. -/
def World.logBuild (w : World) (payload : Payload) : World :=
  { w with built := w.built ++ [payload] }

/-- The `switch` of `performSwap`: the builder selected by `poolType`, or
nothing for an unsupported type (the `default` case throws). -/
def selectPayload (params : SwapParams) (estimate : SwapEstimate) : Option Payload :=
  if params.poolInfo.poolType = "AMM" then some (createAMMSwapPayload params estimate)
  else if params.poolInfo.poolType = "CLMM" then some (createCLMMSwapPayload params estimate)
  else if params.poolInfo.poolType = "STABLE" then some (createStableSwapPayload params estimate)
  else none

/-- The method `performSwap(params, estimate)`. -/
def performSwap (env : Env) (cfg : Config) (params : SwapParams) (estimate : SwapEstimate)
    (w : World) : Option String × World :=
  match selectPayload params estimate with
  | none => (none, w)
  | some payload => submitTransaction env cfg payload 0 (w.logBuild payload)

/-! ## The bot and its two swap entry points -/

/-- The fields of a `TappSwapBot` instance that the modelled methods read. -/
structure TappSwapBot where
  config : Config
  currentPool : Option Pool
  initialTotalValue : ℚ
deriving DecidableEq, Repr

/-- The world on entry to one of the two swap methods: the direction of the
call is logged. -/
def World.logCall (w : World) (a2b : Bool) : World :=
  { w with swapCalls := w.swapCalls ++ [a2b] }

/-- The method `executeSwap(a2b)`.  The transaction hash is tested for
truthiness (`if (txHash)`). -/
def executeSwap (env : Env) (bot : TappSwapBot) (a2b : Bool) (w0 : World) : Bool × World :=
  let w : World := w0.logCall a2b
  match bot.currentPool with
  | none => (false, w)
  | some pool =>
    let tokenIn := if a2b then pool.tokenA else pool.tokenB
    let tokenOut := if a2b then pool.tokenB else pool.tokenA
    let balance := (getBalance env bot.config tokenIn 0 w.conn).1
    let w1 := w.withConn (getBalance env bot.config tokenIn 0 w.conn).2
    if balance ≤ 0 then (false, w1)
    else
      let balanceInAtomic := balance * 10 ^ 6
      let maxAmountFromBalance := balanceInAtomic
      let swapAmount := min maxAmountFromBalance bot.config.initialAmount
      if swapAmount < 1000000 then (false, w1)
      else
        let swapParams : SwapParams :=
          { poolInfo := pool, amountIn := ⌊swapAmount⌋, tokenIn := tokenIn,
            tokenOut := tokenOut, a2b := a2b }
        let w2 := (estimateSwap env bot.config swapParams w1).2
        match (estimateSwap env bot.config swapParams w1).1 with
        | none => (false, w2)
        | some estimate =>
          let w3 := (performSwap env bot.config swapParams estimate w2).2
          match (performSwap env bot.config swapParams estimate w2).1 with
          | some txHash => (decide (txHash ≠ ""), w3)
          | none => (false, w3)

/-- The method `executeSwapWithCustomAmount(a2b, customAmount)`.  The result
is `txHash !== null`. -/
def executeSwapWithCustomAmount (env : Env) (bot : TappSwapBot) (a2b : Bool)
    (customAmount : ℚ) (w0 : World) : Bool × World :=
  let w : World := w0.logCall a2b
  match bot.currentPool with
  | none => (false, w)
  | some pool =>
    let tokenIn := if a2b then pool.tokenA else pool.tokenB
    let tokenOut := if a2b then pool.tokenB else pool.tokenA
    let swapAmount := customAmount
    if swapAmount < 1000000 then (false, w)
    else
      let balance := (getBalance env bot.config tokenIn 0 w.conn).1
      let w1 := w.withConn (getBalance env bot.config tokenIn 0 w.conn).2
      let balanceInAtomic := balance * 10 ^ 6
      if balanceInAtomic < swapAmount then (false, w1)
      else
        let swapParams : SwapParams :=
          { poolInfo := pool, amountIn := ⌊swapAmount⌋, tokenIn := tokenIn,
            tokenOut := tokenOut, a2b := a2b }
        let w2 := (estimateSwap env bot.config swapParams w1).2
        match (estimateSwap env bot.config swapParams w1).1 with
        | none => (false, w2)
        | some estimate =>
          let w3 := (performSwap env bot.config swapParams estimate w2).2
          match (performSwap env bot.config swapParams estimate w2).1 with
          | some _ => (true, w3)
          | none => (false, w3)

/-- The method `calculateCurrentLoss()`. -/
def calculateCurrentLoss (env : Env) (bot : TappSwapBot) (c : Conn) : ℚ × Conn :=
  match bot.currentPool with
  | none => (0, c)
  | some pool =>
    if bot.initialTotalValue = 0 then (0, c)
    else
      let currentBalanceA := (getBalance env bot.config pool.tokenA 0 c).1
      let c1 := (getBalance env bot.config pool.tokenA 0 c).2
      let currentBalanceB := (getBalance env bot.config pool.tokenB 0 c1).1
      let c2 := (getBalance env bot.config pool.tokenB 0 c1).2
      let currentTotalValue := currentBalanceA + currentBalanceB
      let lossAmount := bot.initialTotalValue - currentTotalValue
      let lossPercentage := (lossAmount / bot.initialTotalValue) * 100
      (max 0 lossPercentage, c2)

/-- The method `getCurrentBalances()`; only its effect on the connection
state matters to the callers modelled here, the returned balances are
printed. -/
def getCurrentBalances (env : Env) (bot : TappSwapBot) (c : Conn) : Balances × Conn :=
  match bot.currentPool with
  | none => ({ tokenA := 0, tokenB := 0 }, c)
  | some pool =>
    let balanceA := (getBalance env bot.config pool.tokenA 0 c).1
    let c1 := (getBalance env bot.config pool.tokenA 0 c).2
    let balanceB := (getBalance env bot.config pool.tokenB 0 c1).1
    let c2 := (getBalance env bot.config pool.tokenB 0 c1).2
    ({ tokenA := balanceA, tokenB := balanceB }, c2)

/-! ## The two run modes of `main.js` -/

/-- The module-level object `statistics` of `main.js` (without `startTime`). -/
structure Statistics where
  totalSwaps : Nat
  successfulSwaps : Nat
  failedSwaps : Nat
  totalFees : ℚ
  currentLoss : ℚ
  isRunning : Bool
deriving DecidableEq, Repr

/-- The initial value of `statistics`. -/
def initialStatistics : Statistics :=
  { totalSwaps := 0, successfulSwaps := 0, failedSwaps := 0, totalFees := 0,
    currentLoss := 0, isRunning := false }

/-- The connection state after the two `getBalance` calls that only print
the balances of both pool tokens. -/
def printBalances (env : Env) (bot : TappSwapBot) (pool : Pool) (c : Conn) : Conn :=
  (getBalance env bot.config pool.tokenB 0 (getBalance env bot.config pool.tokenA 0 c).2).2

/-- The function `runDebugMode(bot)`.  With no pool the first statement of
the `try` block throws and the `catch` block only reports. -/
def runDebugMode (env : Env) (bot : TappSwapBot) (statistics : Statistics) (w0 : World) :
    Statistics × World :=
  let st0 : Statistics := { statistics with isRunning := true }
  match bot.currentPool with
  | none => ({ st0 with isRunning := false }, w0)
  | some pool =>
    let w1 := w0.withConn (printBalances env bot pool w0.conn)
    let st1 : Statistics := { st0 with totalSwaps := st0.totalSwaps + 1 }
    let success1 := (executeSwapWithCustomAmount env bot true bot.config.testAmount w1).1
    let w2 := (executeSwapWithCustomAmount env bot true bot.config.testAmount w1).2
    let afterSwaps : Statistics × World :=
      if success1 then
        let st2 : Statistics := { st1 with successfulSwaps := st1.successfulSwaps + 1 }
        let w3 :=
          if bot.config.logDetailedInfo then w2.withConn (printBalances env bot pool w2.conn)
          else w2
        let st3 : Statistics := { st2 with totalSwaps := st2.totalSwaps + 1 }
        let success2 := (executeSwap env bot false w3).1
        let w4 := (executeSwap env bot false w3).2
        if success2 then ({ st3 with successfulSwaps := st3.successfulSwaps + 1 }, w4)
        else ({ st3 with failedSwaps := st3.failedSwaps + 1 }, w4)
      else ({ st1 with failedSwaps := st1.failedSwaps + 1 }, w2)
    let st4 := afterSwaps.1
    let w5 := afterSwaps.2.withConn (printBalances env bot pool afterSwaps.2.conn)
    let finalLoss := (calculateCurrentLoss env bot w5.conn).1
    let w6 := w5.withConn (calculateCurrentLoss env bot w5.conn).2
    ({ st4 with currentLoss := finalLoss, isRunning := false }, w6)

/-- The variables of `runProductionMode`: `statistics`, `currentDirection`
(`true` is A to B), `swapCount`, the world, and a ghost log of the periodic
loss checks (the value of `swapCount` and the recomputed loss). -/
structure LoopState where
  statistics : Statistics
  currentDirection : Bool
  swapCount : Nat
  world : World
  lossChecks : List (Nat × ℚ)
deriving DecidableEq, Repr

/-- The state in which `runProductionMode` enters its `while` loop. -/
def initialLoopState (w0 : World) : LoopState :=
  { statistics := { initialStatistics with isRunning := true }
    currentDirection := true
    swapCount := 0
    world := w0
    lossChecks := [] }

/-- The condition `swapCount % 5 === 0 && swapCount > 0`. -/
def lossCheckDue (s : LoopState) : Bool :=
  s.swapCount % 5 == 0 && decide (s.swapCount > 0)

/-- The first part of the loop body: the periodic loss check.  The boolean
is `true` when the `break` is taken. -/
def lossCheckStep (env : Env) (bot : TappSwapBot) (s : LoopState) : LoopState × Bool :=
  if lossCheckDue s then
    let currentLoss := (calculateCurrentLoss env bot s.world.conn).1
    let c := (calculateCurrentLoss env bot s.world.conn).2
    ({ s with
        statistics := { s.statistics with currentLoss := currentLoss }
        world := s.world.withConn c
        lossChecks := s.lossChecks ++ [(s.swapCount, currentLoss)] },
      decide (currentLoss ≥ bot.config.maxLossPercentage))
  else (s, false)

/-- The second part of the loop body: one swap attempt and the bookkeeping
of its outcome. -/
def swapStep (env : Env) (bot : TappSwapBot) (s : LoopState) : LoopState :=
  let st1 : Statistics := { s.statistics with totalSwaps := s.statistics.totalSwaps + 1 }
  let success := (executeSwap env bot s.currentDirection s.world).1
  let w1 := (executeSwap env bot s.currentDirection s.world).2
  if success then
    let c2 := (getCurrentBalances env bot w1.conn).2
    let c3 := (calculateCurrentLoss env bot c2).2
    { s with
      statistics := { st1 with successfulSwaps := st1.successfulSwaps + 1 }
      currentDirection := !s.currentDirection
      swapCount := s.swapCount + 1
      world := w1.withConn c3 }
  else
    { s with
      statistics := { st1 with failedSwaps := st1.failedSwaps + 1 }
      currentDirection := !s.currentDirection
      world := w1 }

/-- One pass through the body of the `while` loop.  The boolean is `true`
when the pass ends with `break`.  The methods called in the body catch
their own exceptions, so the `catch` block of the loop, which only reports
and waits, is left out, and so are the delays. -/
def productionIteration (env : Env) (bot : TappSwapBot) (s : LoopState) : LoopState × Bool :=
  if (lossCheckStep env bot s).2 then ((lossCheckStep env bot s).1, true)
  else (swapStep env bot (lossCheckStep env bot s).1, false)

/-- The statement `statistics.isRunning = false` (after the loop, and in the
shutdown handler). -/
def LoopState.stop (s : LoopState) : LoopState :=
  { s with statistics := { s.statistics with isRunning := false } }

/-- The `while (statistics.isRunning)` loop of `runProductionMode`, observed
for as many iterations as there are entries in `signals`; an entry tells
whether a shutdown signal arrives during that iteration.  When the loop is
left, `isRunning` is cleared as the statement after the loop does, so
`isRunning` is `true` in the result exactly when the loop is still going. -/
def runLoop (env : Env) (bot : TappSwapBot) : List Bool → LoopState → LoopState
  | [], s => s
  | signal :: rest, s =>
    if s.statistics.isRunning then
      if (productionIteration env bot s).2 then (productionIteration env bot s).1.stop
      else
        runLoop env bot rest
          (if signal then (productionIteration env bot s).1.stop
           else (productionIteration env bot s).1)
    else s

/-- The function `runProductionMode(bot)`, started from the initial
statistics and observed for `signals.length` iterations. -/
def runProductionMode (env : Env) (bot : TappSwapBot) (signals : List Bool) (w0 : World) :
    LoopState :=
  runLoop env bot signals (initialLoopState w0)

/-! ## The active endpoint -/

/-- The expression `rpcUrls[currentRpcIndex]` of `initializeServices`: the
endpoint that every client is built against (`undefined` when the index is
out of range). -/
def currentRpcUrl (cfg : Config) (c : Conn) : Option String :=
  (rpcUrlsOf cfg)[c.currentRpcIndex]?

/-! ## Pool resolution -/

/-- The operator `a || b` on two optional strings: `a` when it is present
and non-empty, otherwise `b`. -/
def jsOrString (a b : Option String) : Option String :=
  match a with
  | some s => if s = "" then b else some s
  | none => b

/-- The truthiness of an optional string: present and non-empty. -/
def jsTruthy (a : Option String) : Bool :=
  match a with
  | some s => s != ""
  | none => false

/-- The fields of `config.json` that `findBestPool` reads. -/
structure PoolConfig where
  poolId : Option String
  poolType : Option String
  tokenAAddress : Option String
  tokenBAddress : Option String
  tokenAName : Option String
  tokenBName : Option String
deriving DecidableEq, Repr

/-- An element of the array `pool.tokens` of a listed pool. -/
structure PoolToken where
  addr : Option String
  symbol : Option String
deriving DecidableEq, Repr

/-- A pool as listed by `tappSDK.Pool.getPools`, in either of the two shapes
the source accepts.  `tokens` is absent when the field is missing or is not
an array. -/
structure ListedPool where
  tokens : Option (List PoolToken)
  tokenA : Option String
  tokenB : Option String
  token_a : Option String
  token_b : Option String
  poolId : Option String
  pool_id : Option String
  id : Option String
  poolType : Option String
  type : Option String
  tvl : Option ℚ
deriving DecidableEq, Repr

/-- The answer of `tappSDK.Pool.getPools`: a bare array, an object whose
`data` or `result` field may hold the array, or anything else. -/
inductive PoolsResponse where
  | array (pools : List ListedPool)
  | wrapped (data : Option (List ListedPool)) (result : Option (List ListedPool))
  | other
deriving DecidableEq, Repr

/-- The object returned by `findBestPool`. -/
structure ResolvedPool where
  poolId : Option String
  poolType : Option String
  tokenA : Option String
  tokenB : Option String
  tvl : ℚ
deriving DecidableEq, Repr

/-- The pool services used at start-up.  `findBestPool` makes a single
upstream call, so the oracles are not indexed by a tick.  `getInfo` answers
with the `tvl` field of the pool information (`.ok none` is a `null`
answer); `getPools` receives the configured pool type. -/
structure PoolEnv where
  getInfo : String → ApiResult (Option (Option ℚ))
  getPools : Option String → ApiResult PoolsResponse

/-- The normalisation of the listing in `findBestPool`: the array itself,
else a truthy `data`, else a truthy `result` (an array, even an empty one, is
truthy); `none` stands for the thrown parse error. -/
def poolsOfResponse : PoolsResponse → Option (List ListedPool)
  | .array pools => some pools
  | .wrapped (some pools) _ => some pools
  | .wrapped none (some pools) => some pools
  | .wrapped none none => none
  | .other => none

/-- The configured token `config.tokenAAddress || config.tokenAName`. -/
def configuredTokenA (cfg : PoolConfig) : Option String :=
  jsOrString cfg.tokenAAddress cfg.tokenAName

/-- The configured token `config.tokenBAddress || config.tokenBName`. -/
def configuredTokenB (cfg : PoolConfig) : Option String :=
  jsOrString cfg.tokenBAddress cfg.tokenBName

/-- The predicate given to `pools.find`: the first two entries of `tokens`
when there are at least two, otherwise the fields `tokenA` and `tokenB`,
compared with the configured pair in either order. -/
def matchesConfiguredPair (cfg : PoolConfig) (pool : ListedPool) : Bool :=
  let tokenA := configuredTokenA cfg
  let tokenB := configuredTokenB cfg
  match pool.tokens with
  | some (t0 :: t1 :: _) =>
    (t0.addr == tokenA && t1.addr == tokenB) || (t0.addr == tokenB && t1.addr == tokenA)
  | _ =>
    (pool.tokenA == tokenA && pool.tokenB == tokenB) ||
      (pool.tokenA == tokenB && pool.tokenB == tokenA)

/-- The object returned for the pool found by `pools.find`. -/
def matchedPoolRecord (cfg : PoolConfig) (targetPool : ListedPool) : ResolvedPool :=
  let tokenPair : Option String × Option String :=
    match targetPool.tokens with
    | some (t0 :: t1 :: _) => (t0.addr, t1.addr)
    | _ =>
      (jsOrString targetPool.tokenA targetPool.token_a,
        jsOrString targetPool.tokenB targetPool.token_b)
  { poolId := jsOrString (jsOrString targetPool.poolId targetPool.pool_id) targetPool.id
    poolType := jsOrString (jsOrString targetPool.poolType targetPool.type) cfg.poolType
    tokenA := tokenPair.1
    tokenB := tokenPair.2
    tvl := jsOrElse targetPool.tvl 0 }

/-- The object returned for the first listed pool when no pool matches. -/
def fallbackPoolRecord (cfg : PoolConfig) (firstPool : ListedPool) : ResolvedPool :=
  let tokenPair : Option String × Option String :=
    match firstPool.tokens with
    | some (t0 :: t1 :: _) => (t0.addr, t1.addr)
    | _ =>
      (jsOrString (jsOrString firstPool.tokenA firstPool.token_a) cfg.tokenAAddress,
        jsOrString (jsOrString firstPool.tokenB firstPool.token_b) cfg.tokenBAddress)
  { poolId := jsOrString (jsOrString firstPool.poolId firstPool.pool_id) firstPool.id
    poolType := jsOrString (jsOrString firstPool.poolType firstPool.type) cfg.poolType
    tokenA := tokenPair.1
    tokenB := tokenPair.2
    tvl := jsOrElse firstPool.tvl 0 }

/-- The method `findBestPool()`.  Every thrown error (a failing listing
call, an unparseable or empty listing, a `null` pool information) is caught
and gives `null`; `getPoolInfo` turns its own error into `tvl: 0`. -/
def findBestPool (penv : PoolEnv) (cfg : PoolConfig) : Option ResolvedPool :=
  if jsTruthy cfg.poolId then
    match penv.getInfo (cfg.poolId.getD "") with
    | .error _ =>
      some
        { poolId := cfg.poolId, poolType := jsOrString cfg.poolType (some "AMM")
          tokenA := cfg.tokenAAddress, tokenB := cfg.tokenBAddress, tvl := 0 }
    | .ok none => none
    | .ok (some tvl) =>
      some
        { poolId := cfg.poolId, poolType := jsOrString cfg.poolType (some "AMM")
          tokenA := cfg.tokenAAddress, tokenB := cfg.tokenBAddress, tvl := jsOrElse tvl 0 }
  else
    match penv.getPools cfg.poolType with
    | .error _ => none
    | .ok poolsResponse =>
      match poolsOfResponse poolsResponse with
      | none => none
      | some [] => none
      | some (firstPool :: rest) =>
        match (firstPool :: rest).find? (matchesConfiguredPair cfg) with
        | some targetPool => some (matchedPoolRecord cfg targetPool)
        | none => some (fallbackPoolRecord cfg firstPool)

/-! ## The private key -/

/-- The fields of `config.json` that `loadPrivateKey` reads. -/
structure KeyConfig where
  privateKey : Option String
  privateKeyFile : Option String
deriving DecidableEq, Repr

/-- The file system as `loadPrivateKey` uses it: `readTrimmed path` is
`fs.readFileSync(path, 'utf8').trim()`, `none` when the read throws. -/
structure FileSystem where
  readTrimmed : String → Option String
  existsSync : String → Bool

/-- The loop over the fallback key files: the first file that exists and can
be read gives the key (whatever it holds) and ends the loop; a file that
does not exist, or whose read throws, is skipped. -/
def readFallbackKeyFiles (fs : FileSystem) : List String → Option String
  | [] => none
  | keyFile :: rest =>
    if fs.existsSync keyFile then
      match fs.readTrimmed keyFile with
      | some content => some content
      | none => readFallbackKeyFiles fs rest
    else readFallbackKeyFiles fs rest

/-- The credential lookup of `loadPrivateKey`: the value of the variable
`privateKey` when the validation starts.  Inline key, then the configured
key file, then the fixed list of key files. -/
def findPrivateKey (fs : FileSystem) (cfg : KeyConfig) : Option String :=
  let fromConfig := cfg.privateKey
  let fromFile :=
    if !jsTruthy fromConfig && jsTruthy cfg.privateKeyFile then
      match fs.readTrimmed (cfg.privateKeyFile.getD "") with
      | some content => some content
      | none => fromConfig
    else fromConfig
  if !jsTruthy fromFile then
    match readFallbackKeyFiles fs ["private.key", "wallet.key", "test01.key"] with
    | some content => some content
    | none => fromFile
  else fromFile

/-- The character class `[0-9a-fA-F]`. -/
def isHexChar (c : Char) : Bool :=
  ('0' ≤ c && c ≤ '9') || ('a' ≤ c && c ≤ 'f') || ('A' ≤ c && c ≤ 'F')

/-- The test `/^[0-9a-fA-F]+$/.test(s)`: a non-empty string of hexadecimal
characters. -/
def isHexString (s : String) : Bool :=
  !s.toList.isEmpty && s.toList.all isHexChar

/-- The function `loadPrivateKey()`; `none` stands for each of the three
thrown errors (no key, wrong length, invalid character).  The length is
counted in characters (code points); the two counts differ only for strings
that fail the hexadecimal test. -/
def loadPrivateKey (fs : FileSystem) (cfg : KeyConfig) : Option String :=
  match findPrivateKey fs cfg with
  | none => none
  | some found =>
    if found = "" then none
    else
      let privateKey :=
        if "0x".toList.isPrefixOf found.toList then String.mk (found.toList.drop 2) else found
      if privateKey.length ≠ 64 then none
      else if !isHexString privateKey then none
      else some privateKey

/-! ## Concrete environments used as witnesses -/

/-- A world with nothing logged and the first endpoint active. -/
def World.initial : World :=
  { conn := { currentRpcIndex := 0, tick := 0, rpcSwitches := 0 }
    quotes := [], built := [], submitted := [], swapCalls := [] }

/-- A configuration with three endpoints, a maximum swap amount of 10 tokens,
1 % slippage tolerance and a 5 % loss threshold. -/
def exampleConfig : Config :=
  { rpcUrls := some ["https://rpc0", "https://rpc1", "https://rpc2"], rpcUrl := none
    initialAmount := 10000000, slippageTolerance := 1, maxLossPercentage := 5
    testAmount := 5000000, logDetailedInfo := false }

/-- An AMM pool of the two stable tokens. -/
def examplePool : Pool :=
  { poolId := "0xpool", poolType := "AMM", tokenA := "USDT", tokenB := "USDC" }

/-- An environment in which the account holds 90 USDT and 95 USDC, the quoter
always answers an output amount of 9,950,000 and every submission is
confirmed. -/
def lossEnv : Env :=
  { getAccountAPTAmount := fun _ => .ok 0
    getCurrentFungibleAssetBalances := fun _ =>
      .ok [{ asset_type := "USDT", amount := 90000000 },
           { asset_type := "USDC", amount := 95000000 }]
    getAccountCoinAmount := fun _ _ => .error none
    getEstSwapAmount := fun _ _ =>
      .ok (some { error := none, amountOut := some 9950000, estAmount := none,
                  amountIn := none, amount := none, priceImpact := none, fee := none })
    submit := fun _ _ => .ok "0xhash" }

/-- A bot whose baseline is 100 USDT plus 100 USDC. -/
def lossBot : TappSwapBot :=
  { config := exampleConfig, currentPool := some examplePool, initialTotalValue := 200 }

/-- An environment whose quoter answers an output amount of 1,000,000. -/
def quoteEnv : Env :=
  { lossEnv with
    getEstSwapAmount := fun _ _ =>
      .ok (some { error := none, amountOut := some 1000000, estAmount := none,
                  amountIn := none, amount := none, priceImpact := none, fee := none }) }

/-- A swap request of 2 USDT on the example pool. -/
def exampleParams : SwapParams :=
  { poolInfo := examplePool, amountIn := 2000000, tokenIn := "USDT", tokenOut := "USDC",
    a2b := true }

/-- An environment in which the account holds half a token of each kind. -/
def dustEnv : Env :=
  { lossEnv with
    getCurrentFungibleAssetBalances := fun _ =>
      .ok [{ asset_type := "USDT", amount := 500000 },
           { asset_type := "USDC", amount := 500000 }] }

/-- An environment in which the account holds 94 USDT and 94 USDC, so that
against the baseline of 200 the loss is 6 %; every quote and every
submission succeeds. -/
def sixEnv : Env :=
  { lossEnv with
    getCurrentFungibleAssetBalances := fun _ =>
      .ok [{ asset_type := "USDT", amount := 94000000 },
           { asset_type := "USDC", amount := 94000000 }] }

/-- An environment whose fungible-asset query is rate limited (status 429)
on the first two calls and then lists 7 USDT and no USDC; the legacy coin
query reports 5 tokens. -/
def rateLimitedEnv : Env :=
  { getAccountAPTAmount := fun _ => .ok 0
    getCurrentFungibleAssetBalances := fun tick =>
      if tick < 2 then .error (some 429)
      else .ok [{ asset_type := "USDT", amount := 7000000 }]
    getAccountCoinAmount := fun _ _ => .ok 5000000
    getEstSwapAmount := fun _ _ => .error none
    submit := fun _ _ => .error none }

/-- An environment in which the native-asset query and the legacy coin query
are rate limited (status 429) and the fungible-asset query lists nothing. -/
def throttledEnv : Env :=
  { getAccountAPTAmount := fun _ => .error (some 429)
    getCurrentFungibleAssetBalances := fun _ => .ok []
    getAccountCoinAmount := fun _ _ => .error (some 429)
    getEstSwapAmount := fun _ _ => .error none
    submit := fun _ _ => .error none }

/-- An environment in which every upstream call is rate limited (status 429). -/
def alwaysLimitedEnv : Env :=
  { getAccountAPTAmount := fun _ => .error (some 429)
    getCurrentFungibleAssetBalances := fun _ => .error (some 429)
    getAccountCoinAmount := fun _ _ => .error (some 429)
    getEstSwapAmount := fun _ _ => .error (some 429)
    submit := fun _ _ => .error (some 429) }

/-- An AMM payload for 2 USDT with a minimum output of 1.98 USDC. -/
def examplePayload : Payload :=
  .amm "0xpool" true true 2000000 1980000

/-- A configuration with a single endpoint, given by `rpcUrl`. -/
def singleEndpointConfig : Config :=
  { exampleConfig with rpcUrls := none, rpcUrl := some "https://rpc0" }

/-- A swap request on a pool whose type is none of the three supported. -/
def unsupportedParams : SwapParams :=
  { exampleParams with poolInfo := { examplePool with poolType := "ORDERBOOK" } }

/-- An estimate of 1,990,000 output units with a minimum of 1,970,100. -/
def exampleEstimate : SwapEstimate :=
  { amountOut := 1990000, amountIn := 2000000, priceImpact := 0, fee := 0,
    minAmountOut := 1970100 }

/-- An environment whose quoter reports an output amount of 0 under the name
`amountOut` and nothing under `estAmount`. -/
def zeroQuoteEnv : Env :=
  { lossEnv with
    getEstSwapAmount := fun _ _ =>
      .ok (some { error := none, amountOut := some 0, estAmount := none,
                  amountIn := none, amount := none, priceImpact := none, fee := none }) }

/-- An environment in which the account holds the given atomic amounts of
USDT and USDC, the quoter always answers an output amount of 9,950,000 and
every submission is confirmed. -/
def holdingEnv (amountA amountB : Nat) : Env :=
  { lossEnv with
    getCurrentFungibleAssetBalances := fun _ =>
      .ok [{ asset_type := "USDT", amount := amountA },
           { asset_type := "USDC", amount := amountB }] }

/-- A configuration that pins no pool and names the pair USDT / USDC. -/
def examplePoolConfig : PoolConfig :=
  { poolId := none, poolType := some "AMM", tokenAAddress := some "USDT",
    tokenBAddress := some "USDC", tokenAName := some "Tether", tokenBName := some "USD Coin" }

/-- A listed pool of APT and USDT in the `tokens` shape. -/
def aptPool : ListedPool :=
  { tokens := some [{ addr := some "0x1", symbol := some "APT" },
                    { addr := some "USDT", symbol := some "USDT" }]
    tokenA := none, tokenB := none, token_a := none, token_b := none
    poolId := some "0xapt", pool_id := none, id := none
    poolType := some "AMM", type := none, tvl := some 900 }

/-- A listed pool of USDC and USDT (the configured pair, reversed) in the
`tokens` shape. -/
def stablePool : ListedPool :=
  { tokens := some [{ addr := some "USDC", symbol := some "USDC" },
                    { addr := some "USDT", symbol := some "USDT" }]
    tokenA := none, tokenB := none, token_a := none, token_b := none
    poolId := some "0xstable", pool_id := none, id := none
    poolType := some "STABLE", type := none, tvl := some 500 }

/-- A pool service that lists `aptPool` and `stablePool` under `data`. -/
def examplePoolEnv : PoolEnv :=
  { getInfo := fun _ => .error none
    getPools := fun _ => .ok (.wrapped (some [aptPool, stablePool]) none) }

/-- A file system without any key file. -/
def emptyFileSystem : FileSystem :=
  { readTrimmed := fun _ => none, existsSync := fun _ => false }

/-- A configuration whose inline key is 64 hexadecimal characters behind the
prefix `0x`. -/
def exampleKeyConfig : KeyConfig :=
  { privateKey :=
      some "0x0123456789abcdef0123456789ABCDEF0123456789abcdef0123456789ABCDEF"
    privateKeyFile := none }

/-- A configuration that pins no pool and names the pair `0xa` / `0xb` by
address. -/
def pairPoolConfig : PoolConfig :=
  { poolId := none, poolType := none, tokenAAddress := some "0xa",
    tokenBAddress := some "0xb", tokenAName := none, tokenBName := none }

/-- A listed pool of `0x1` and `USDT` in the `tokens` shape, with a `poolId`
and nothing else. -/
def bareAptPool : ListedPool :=
  { tokens := some [{ addr := some "0x1", symbol := none },
                    { addr := some "USDT", symbol := none }]
    tokenA := none, tokenB := none, token_a := none, token_b := none
    poolId := some "0xapt", pool_id := none, id := none
    poolType := none, type := none, tvl := none }

/-- A listed pool in the old shape that carries only the fields `pool_id`,
`token_a` and `token_b`, holding the pair `0xa` / `0xb`. -/
def oldStructurePool : ListedPool :=
  { tokens := none, tokenA := none, tokenB := none
    token_a := some "0xa", token_b := some "0xb"
    poolId := none, pool_id := some "p2", id := none
    poolType := none, type := none, tvl := none }

/-- A pool service that lists `bareAptPool` and `oldStructurePool`, as a bare
array. -/
def oldStructurePoolEnv : PoolEnv :=
  { getInfo := fun _ => .error none
    getPools := fun _ => .ok (.array [bareAptPool, oldStructurePool]) }

/-! ## Recursion equations of the retry methods -/

theorem getBalance_eq (env : Env) (cfg : Config) (tokenAddress : String) (retryCount : Nat)
    (c : Conn) :
    getBalance env cfg tokenAddress retryCount c =
      getBalanceBody env cfg tokenAddress retryCount
        (getBalance env cfg tokenAddress (retryCount + 1)) c := by
  unfold getBalance
  by_cases h : retryCount < 3
  · obtain ⟨n, hn⟩ : ∃ n, 3 - retryCount = n + 1 := ⟨2 - retryCount, by omega⟩
    have hn2 : 3 - (retryCount + 1) = n := by omega
    rw [hn, hn2, getBalanceBudget]
  · have h0 : 3 - retryCount = 0 := by omega
    rw [h0, getBalanceBudget]
    simp [getBalanceBody, h]

theorem submitTransaction_eq (env : Env) (cfg : Config) (payload : Payload) (retryCount : Nat)
    (w : World) :
    submitTransaction env cfg payload retryCount w =
      submitTransactionBody env cfg payload retryCount
        (submitTransaction env cfg payload (retryCount + 1)) w := by
  unfold submitTransaction
  by_cases h : retryCount < 3
  · obtain ⟨n, hn⟩ : ∃ n, 3 - retryCount = n + 1 := ⟨2 - retryCount, by omega⟩
    have hn2 : 3 - (retryCount + 1) = n := by omega
    rw [hn, hn2, submitTransactionBudget]
  · have h0 : 3 - retryCount = 0 := by omega
    rw [h0, submitTransactionBudget]
    simp [submitTransactionBody, h]

/-! ## Balance resolution when a query fails -/

theorem getBalance_native_error (env : Env) (cfg : Config) (tokenAddress : String)
    (retryCount : Nat) (c : Conn) (status : Option Nat)
    (hnative : isNativeToken tokenAddress = true)
    (h : env.getAccountAPTAmount c.tick = .error status) :
    getBalance env cfg tokenAddress retryCount c = (0, c.next) := by
  rw [getBalance_eq]
  simp only [getBalanceBody, hnative, if_true, h]

theorem getBalance_coin_error (env : Env) (cfg : Config) (tokenAddress : String)
    (retryCount : Nat) (c : Conn) (balances : List FABalance) (status : Option Nat)
    (hnative : isNativeToken tokenAddress = false)
    (hfa : env.getCurrentFungibleAssetBalances c.tick = .ok balances)
    (hzero : fungibleAssetAmount balances tokenAddress ≤ 0)
    (hcoin : ∀ coinType, env.getAccountCoinAmount (c.tick + 1) coinType = .error status) :
    getBalance env cfg tokenAddress retryCount c = (0, c.next.next) := by
  rw [getBalance_eq]
  simp only [getBalanceBody, hnative, Bool.false_eq_true, if_false, getFungibleAssetBalance, hfa,
    if_neg (not_lt.mpr hzero), coinFallback, getCoinBalance, Conn.next, hcoin]

/-! ## Frame lemmas: which logs a method extends -/

theorem estimateSwap_world (env : Env) (cfg : Config) (params : SwapParams) (w : World) :
    (estimateSwap env cfg params w).2 =
      w.logQuote
        { poolId := params.poolInfo.poolId, a2b := params.a2b, field := "input",
          amount := params.amountIn, pair := [0, 1] } := by
  unfold estimateSwap
  dsimp only
  split
  · rfl
  · rfl
  · split
    · rfl
    · split <;> rfl

theorem submitTransactionBudget_logs (env : Env) (cfg : Config) (payload : Payload) :
    ∀ (budget retryCount : Nat) (w : World),
      ∃ n,
        (submitTransactionBudget env cfg payload budget retryCount w).2.submitted =
            w.submitted ++ List.replicate (n + 1) payload ∧
          (submitTransactionBudget env cfg payload budget retryCount w).2.quotes = w.quotes ∧
          (submitTransactionBudget env cfg payload budget retryCount w).2.built = w.built ∧
          (submitTransactionBudget env cfg payload budget retryCount w).2.swapCalls =
            w.swapCalls := by
  intro budget
  induction budget with
  | zero =>
    intro retryCount w
    refine ⟨0, ?_⟩
    simp only [submitTransactionBudget, submitTransactionBody]
    split
    · simp [World.logSubmit]
    · split <;> simp [World.logSubmit, World.withConn]
  | succ budget ih =>
    intro retryCount w
    simp only [submitTransactionBudget, submitTransactionBody]
    split
    · exact ⟨0, by simp [World.logSubmit]⟩
    · split
      · obtain ⟨n, h1, h2, h3, h4⟩ := ih (retryCount + 1)
          ((w.logSubmit payload).withConn (switchToNextRpc cfg (w.logSubmit payload).conn))
        refine ⟨n + 1, ?_, ?_, ?_, ?_⟩
        · rw [h1]
          simp [World.logSubmit, World.withConn, List.replicate_succ]
        · rw [h2]; rfl
        · rw [h3]; rfl
        · rw [h4]; rfl
      · exact ⟨0, by simp [World.logSubmit]⟩

theorem selectPayload_inputAmount (params : SwapParams) (estimate : SwapEstimate)
    (payload : Payload) (h : selectPayload params estimate = some payload) :
    payload.inputAmount = params.amountIn := by
  unfold selectPayload at h
  split_ifs at h <;> simp at h <;> subst h <;>
    cases ha : params.a2b <;>
    simp [createAMMSwapPayload, createCLMMSwapPayload, createStableSwapPayload,
      Payload.inputAmount, ha]

theorem performSwap_logs (env : Env) (cfg : Config) (params : SwapParams)
    (estimate : SwapEstimate) (w : World) :
    (performSwap env cfg params estimate w).2.quotes = w.quotes ∧
      (performSwap env cfg params estimate w).2.swapCalls = w.swapCalls ∧
      ∃ newBuilt newSubmitted,
        (performSwap env cfg params estimate w).2.built = w.built ++ newBuilt ∧
          (performSwap env cfg params estimate w).2.submitted = w.submitted ++ newSubmitted ∧
          (∀ p ∈ newBuilt, p.inputAmount = params.amountIn) ∧
          (∀ p ∈ newSubmitted, p.inputAmount = params.amountIn) := by
  unfold performSwap
  cases hsel : selectPayload params estimate with
  | none => exact ⟨rfl, rfl, [], [], by simp⟩
  | some payload =>
    obtain ⟨n, h1, h2, h3, h4⟩ :=
      submitTransactionBudget_logs env cfg payload (3 - 0) 0 (w.logBuild payload)
    have hin := selectPayload_inputAmount params estimate payload hsel
    refine ⟨h2, h4, [payload], List.replicate (n + 1) payload, h3, h1, ?_, ?_⟩
    · intro p hp
      simp at hp
      rw [hp, hin]
    · intro p hp
      rw [List.eq_of_mem_replicate hp, hin]

theorem executeSwap_swapCalls (env : Env) (bot : TappSwapBot) (a2b : Bool) (w0 : World) :
    (executeSwap env bot a2b w0).2.swapCalls = w0.swapCalls ++ [a2b] := by
  unfold executeSwap
  dsimp only
  cases bot.currentPool with
  | none => rfl
  | some pool =>
    dsimp only
    generalize (if a2b = true then pool.tokenA else pool.tokenB) = tokenIn
    generalize (if a2b = true then pool.tokenB else pool.tokenA) = tokenOut
    split
    · rfl
    · split
      · rfl
      · split
        · simp [estimateSwap_world, World.logQuote, World.withConn, World.logCall]
        · split <;>
            simp [estimateSwap_world, (performSwap_logs _ _ _ _ _).2.1, World.logQuote,
              World.withConn, World.logCall]

theorem executeSwapWithCustomAmount_swapCalls (env : Env) (bot : TappSwapBot) (a2b : Bool)
    (customAmount : ℚ) (w0 : World) :
    (executeSwapWithCustomAmount env bot a2b customAmount w0).2.swapCalls =
      w0.swapCalls ++ [a2b] := by
  unfold executeSwapWithCustomAmount
  dsimp only
  cases bot.currentPool with
  | none => rfl
  | some pool =>
    dsimp only
    generalize (if a2b = true then pool.tokenA else pool.tokenB) = tokenIn
    generalize (if a2b = true then pool.tokenB else pool.tokenA) = tokenOut
    split
    · rfl
    · split
      · rfl
      · split
        · simp [estimateSwap_world, World.logQuote, World.withConn, World.logCall]
        · split <;>
            simp [estimateSwap_world, (performSwap_logs _ _ _ _ _).2.1, World.logQuote,
              World.withConn, World.logCall]

/-! ## The production loop: effect of one pass and loop invariants -/

theorem lossCheckStep_frame (env : Env) (bot : TappSwapBot) (s : LoopState) :
    (lossCheckStep env bot s).1.statistics.totalSwaps = s.statistics.totalSwaps ∧
      (lossCheckStep env bot s).1.statistics.successfulSwaps = s.statistics.successfulSwaps ∧
      (lossCheckStep env bot s).1.statistics.failedSwaps = s.statistics.failedSwaps ∧
      (lossCheckStep env bot s).1.statistics.isRunning = s.statistics.isRunning ∧
      (lossCheckStep env bot s).1.currentDirection = s.currentDirection ∧
      (lossCheckStep env bot s).1.swapCount = s.swapCount ∧
      (lossCheckStep env bot s).1.world.swapCalls = s.world.swapCalls := by
  unfold lossCheckStep
  split <;> simp [World.withConn]

theorem swapStep_effect (env : Env) (bot : TappSwapBot) (s : LoopState) :
    (swapStep env bot s).statistics.totalSwaps = s.statistics.totalSwaps + 1 ∧
      (swapStep env bot s).statistics.successfulSwaps + (swapStep env bot s).statistics.failedSwaps
        = s.statistics.successfulSwaps + s.statistics.failedSwaps + 1 ∧
      (swapStep env bot s).statistics.isRunning = s.statistics.isRunning ∧
      (swapStep env bot s).currentDirection = !s.currentDirection ∧
      (swapStep env bot s).swapCount + s.statistics.successfulSwaps
        = s.swapCount + (swapStep env bot s).statistics.successfulSwaps ∧
      (swapStep env bot s).world.swapCalls = s.world.swapCalls ++ [s.currentDirection] ∧
      (swapStep env bot s).lossChecks = s.lossChecks := by
  unfold swapStep
  dsimp only
  split
  · simp [World.withConn, executeSwap_swapCalls]
    omega
  · simp [executeSwap_swapCalls]
    omega

theorem runLoop_invariant (env : Env) (bot : TappSwapBot) (P : LoopState → Prop)
    (hiter : ∀ s, P s → P (productionIteration env bot s).1)
    (hstop : ∀ s, P s → P s.stop) :
    ∀ (signals : List Bool) (s : LoopState), P s → P (runLoop env bot signals s) := by
  intro signals
  induction signals with
  | nil => intro s hs; exact hs
  | cons signal rest ih =>
    intro s hs
    unfold runLoop
    split
    · split
      · exact hstop _ (hiter s hs)
      · apply ih
        split
        · exact hstop _ (hiter s hs)
        · exact hiter s hs
    · exact hs

theorem productionIteration_balanced (env : Env) (bot : TappSwapBot) (s : LoopState)
    (h : s.statistics.successfulSwaps + s.statistics.failedSwaps = s.statistics.totalSwaps) :
    (productionIteration env bot s).1.statistics.successfulSwaps +
        (productionIteration env bot s).1.statistics.failedSwaps =
      (productionIteration env bot s).1.statistics.totalSwaps := by
  obtain ⟨h1, h2, h3, -⟩ := lossCheckStep_frame env bot s
  unfold productionIteration
  split
  · dsimp only
    omega
  · obtain ⟨g1, g2, -⟩ := swapStep_effect env bot (lossCheckStep env bot s).1
    dsimp only
    omega

/-- C1. In the continuous loop, observed after any number of passes and under
any upstream behaviour, and at the end of debug mode, the statistics satisfy
`successfulSwaps + failedSwaps = totalSwaps`. -/
theorem statistics_counters_balanced (env : Env) (bot : TappSwapBot) (signals : List Bool)
    (w0 : World) :
    (runProductionMode env bot signals w0).statistics.successfulSwaps +
          (runProductionMode env bot signals w0).statistics.failedSwaps =
        (runProductionMode env bot signals w0).statistics.totalSwaps ∧
      (runDebugMode env bot initialStatistics w0).1.successfulSwaps +
          (runDebugMode env bot initialStatistics w0).1.failedSwaps =
        (runDebugMode env bot initialStatistics w0).1.totalSwaps := by
  constructor
  · unfold runProductionMode
    exact runLoop_invariant env bot
      (fun s => s.statistics.successfulSwaps + s.statistics.failedSwaps = s.statistics.totalSwaps)
      (fun s hs => productionIteration_balanced env bot s hs)
      (fun s hs => hs) signals (initialLoopState w0) rfl
  · unfold runDebugMode
    dsimp only
    cases bot.currentPool with
    | none => rfl
    | some pool =>
      dsimp only
      split_ifs <;> rfl

/-! ## C4 and C5: what `executeSwap` sends to the quoter and the submitter -/

theorem executeSwap_logs (env : Env) (bot : TappSwapBot) (pool : Pool) (a2b : Bool)
    (w0 : World) (balance : ℚ)
    (hpool : bot.currentPool = some pool)
    (hbal : (getBalance env bot.config (if a2b then pool.tokenA else pool.tokenB) 0
              w0.conn).1 = balance) :
    ((balance ≤ 0 ∨ min (balance * 10 ^ 6) bot.config.initialAmount < 1000000) →
        (executeSwap env bot a2b w0).1 = false ∧
          (executeSwap env bot a2b w0).2.quotes = w0.quotes ∧
          (executeSwap env bot a2b w0).2.built = w0.built ∧
          (executeSwap env bot a2b w0).2.submitted = w0.submitted) ∧
      ((0 < balance ∧ 1000000 ≤ min (balance * 10 ^ 6) bot.config.initialAmount) →
        (executeSwap env bot a2b w0).2.quotes =
            w0.quotes ++
              [{ poolId := pool.poolId, a2b := a2b, field := "input",
                 amount := ⌊min (balance * 10 ^ 6) bot.config.initialAmount⌋, pair := [0, 1] }] ∧
          ∃ newBuilt newSubmitted,
            (executeSwap env bot a2b w0).2.built = w0.built ++ newBuilt ∧
              (executeSwap env bot a2b w0).2.submitted = w0.submitted ++ newSubmitted ∧
              (∀ p ∈ newBuilt,
                p.inputAmount = ⌊min (balance * 10 ^ 6) bot.config.initialAmount⌋) ∧
              (∀ p ∈ newSubmitted,
                p.inputAmount = ⌊min (balance * 10 ^ 6) bot.config.initialAmount⌋)) := by
  have hconn : (w0.logCall a2b).conn = w0.conn := rfl
  constructor
  · intro h
    unfold executeSwap
    simp only [hpool, hconn, hbal]
    by_cases h1 : balance ≤ 0
    · rw [if_pos h1]
      exact ⟨rfl, rfl, rfl, rfl⟩
    · have h2 : min (balance * 10 ^ 6) bot.config.initialAmount < 1000000 := by
        rcases h with h | h
        · exact absurd h h1
        · exact h
      rw [if_neg h1, if_pos h2]
      exact ⟨rfl, rfl, rfl, rfl⟩
  · rintro ⟨h1, h2⟩
    unfold executeSwap
    simp only [hpool, hconn, hbal, if_neg (not_le.mpr h1), if_neg (not_lt.mpr h2)]
    split
    · simp only [estimateSwap_world]
      exact ⟨rfl, [], [], by simp [World.logQuote, World.withConn, World.logCall]⟩
    · next estimate _ =>
      simp only [estimateSwap_world]
      obtain ⟨hq, -, nb, ns, hb, hs, hnb, hns⟩ := performSwap_logs env bot.config
        { poolInfo := pool, amountIn := ⌊min (balance * 10 ^ 6) bot.config.initialAmount⌋,
          tokenIn := if a2b then pool.tokenA else pool.tokenB,
          tokenOut := if a2b then pool.tokenB else pool.tokenA, a2b := a2b } estimate
        (((w0.logCall a2b).withConn
          (getBalance env bot.config (if a2b then pool.tokenA else pool.tokenB) 0 w0.conn).2).logQuote
          { poolId := pool.poolId, a2b := a2b, field := "input",
            amount := ⌊min (balance * 10 ^ 6) bot.config.initialAmount⌋, pair := [0, 1] })
      split
      · exact ⟨hq, nb, ns, hb, hs, hnb, hns⟩
      · exact ⟨hq, nb, ns, hb, hs, hnb, hns⟩

theorem executeSwapWithCustomAmount_logs (env : Env) (bot : TappSwapBot) (pool : Pool)
    (a2b : Bool) (customAmount : ℚ) (w0 : World) (hpool : bot.currentPool = some pool) :
    (customAmount < 1000000 →
        (executeSwapWithCustomAmount env bot a2b customAmount w0).1 = false ∧
          (executeSwapWithCustomAmount env bot a2b customAmount w0).2 = w0.logCall a2b) ∧
      ∃ newQuotes newBuilt newSubmitted,
        (executeSwapWithCustomAmount env bot a2b customAmount w0).2.quotes =
            w0.quotes ++ newQuotes ∧
          (executeSwapWithCustomAmount env bot a2b customAmount w0).2.built =
            w0.built ++ newBuilt ∧
          (executeSwapWithCustomAmount env bot a2b customAmount w0).2.submitted =
            w0.submitted ++ newSubmitted ∧
          (∀ q ∈ newQuotes, q.amount = ⌊customAmount⌋ ∧ 1000000 ≤ q.amount) ∧
          (∀ p ∈ newBuilt, p.inputAmount = ⌊customAmount⌋ ∧ 1000000 ≤ p.inputAmount) ∧
          (∀ p ∈ newSubmitted, p.inputAmount = ⌊customAmount⌋ ∧ 1000000 ≤ p.inputAmount) := by
  have hconn : (w0.logCall a2b).conn = w0.conn := rfl
  constructor
  · intro h
    unfold executeSwapWithCustomAmount
    simp only [hpool]
    rw [if_pos h]
    exact ⟨rfl, rfl⟩
  · unfold executeSwapWithCustomAmount
    simp only [hpool, hconn]
    by_cases h1 : customAmount < 1000000
    · rw [if_pos h1]
      exact ⟨[], [], [], by simp [World.logCall]⟩
    · rw [if_neg h1]
      have hfl : (1000000 : ℤ) ≤ ⌊customAmount⌋ := by
        rw [Int.le_floor]
        push_cast
        exact not_lt.mp h1
      generalize (if a2b = true then pool.tokenA else pool.tokenB) = tokenIn
      generalize (if a2b = true then pool.tokenB else pool.tokenA) = tokenOut
      by_cases h2 : (getBalance env bot.config tokenIn 0 w0.conn).1 * 10 ^ 6 < customAmount
      · rw [if_pos h2]
        exact ⟨[], [], [], by simp [World.logCall, World.withConn]⟩
      · rw [if_neg h2]
        split
        · simp only [estimateSwap_world]
          exact ⟨[{ poolId := pool.poolId, a2b := a2b, field := "input",
                    amount := ⌊customAmount⌋, pair := [0, 1] }], [], [],
            by simp [World.logQuote, World.withConn, World.logCall, hfl]⟩
        · next estimate _ =>
          simp only [estimateSwap_world]
          obtain ⟨hq, -, nb, ns, hb, hs, hnb, hns⟩ := performSwap_logs env bot.config
            { poolInfo := pool, amountIn := ⌊customAmount⌋, tokenIn := tokenIn,
              tokenOut := tokenOut, a2b := a2b } estimate
            (((w0.logCall a2b).withConn
              (getBalance env bot.config tokenIn 0 w0.conn).2).logQuote
              { poolId := pool.poolId, a2b := a2b, field := "input",
                amount := ⌊customAmount⌋, pair := [0, 1] })
          have hnb2 : ∀ p ∈ nb, p.inputAmount = ⌊customAmount⌋ ∧ 1000000 ≤ p.inputAmount :=
            fun p hp => ⟨hnb p hp, by rw [hnb p hp]; exact hfl⟩
          have hns2 : ∀ p ∈ ns, p.inputAmount = ⌊customAmount⌋ ∧ 1000000 ≤ p.inputAmount :=
            fun p hp => ⟨hns p hp, by rw [hns p hp]; exact hfl⟩
          split
          · exact ⟨[_], nb, ns, hq, hb, hs, by simp [hfl], hnb2, hns2⟩
          · exact ⟨[_], nb, ns, hq, hb, hs, by simp [hfl], hnb2, hns2⟩

/-- C4. When the amount computed by `executeSwap`, `min(balance * 10^6,
initialAmount)`, is below 1,000,000, and when the custom amount given to
`executeSwapWithCustomAmount` is below 1,000,000, the method returns `false`
and nothing is sent to the quoter, no payload is built and nothing is
submitted; every request that either method does send to the quoter, every
payload it builds and every payload it submits has an input amount of at
least 1,000,000. -/
theorem swap_below_minimum_never_submitted (env : Env) (bot : TappSwapBot) (pool : Pool)
    (a2b : Bool) (customAmount : ℚ) (w0 : World) (balance : ℚ)
    (hpool : bot.currentPool = some pool)
    (hbal : (getBalance env bot.config (if a2b then pool.tokenA else pool.tokenB) 0
              w0.conn).1 = balance) :
    (min (balance * 10 ^ 6) bot.config.initialAmount < 1000000 →
        (executeSwap env bot a2b w0).1 = false ∧
          (executeSwap env bot a2b w0).2.quotes = w0.quotes ∧
          (executeSwap env bot a2b w0).2.built = w0.built ∧
          (executeSwap env bot a2b w0).2.submitted = w0.submitted) ∧
      (customAmount < 1000000 →
        (executeSwapWithCustomAmount env bot a2b customAmount w0).1 = false ∧
          (executeSwapWithCustomAmount env bot a2b customAmount w0).2.quotes = w0.quotes ∧
          (executeSwapWithCustomAmount env bot a2b customAmount w0).2.built = w0.built ∧
          (executeSwapWithCustomAmount env bot a2b customAmount w0).2.submitted =
            w0.submitted) ∧
      (∃ newQuotes newBuilt newSubmitted,
        (executeSwap env bot a2b w0).2.quotes = w0.quotes ++ newQuotes ∧
          (executeSwap env bot a2b w0).2.built = w0.built ++ newBuilt ∧
          (executeSwap env bot a2b w0).2.submitted = w0.submitted ++ newSubmitted ∧
          (∀ q ∈ newQuotes, 1000000 ≤ q.amount) ∧
          (∀ p ∈ newBuilt, 1000000 ≤ p.inputAmount) ∧
          (∀ p ∈ newSubmitted, 1000000 ≤ p.inputAmount)) ∧
      (∃ newQuotes newBuilt newSubmitted,
        (executeSwapWithCustomAmount env bot a2b customAmount w0).2.quotes =
            w0.quotes ++ newQuotes ∧
          (executeSwapWithCustomAmount env bot a2b customAmount w0).2.built =
            w0.built ++ newBuilt ∧
          (executeSwapWithCustomAmount env bot a2b customAmount w0).2.submitted =
            w0.submitted ++ newSubmitted ∧
          (∀ q ∈ newQuotes, 1000000 ≤ q.amount) ∧
          (∀ p ∈ newBuilt, 1000000 ≤ p.inputAmount) ∧
          (∀ p ∈ newSubmitted, 1000000 ≤ p.inputAmount)) := by
  obtain ⟨hlow, hhigh⟩ := executeSwap_logs env bot pool a2b w0 balance hpool hbal
  obtain ⟨clow, nq, nb, ns, cq, cb, cs, cnq, cnb, cns⟩ :=
    executeSwapWithCustomAmount_logs env bot pool a2b customAmount w0 hpool
  refine ⟨fun h => hlow (Or.inr h), ?_, ?_, ?_⟩
  · intro h
    obtain ⟨c1, c2⟩ := clow h
    rw [c2]
    exact ⟨c1, rfl, rfl, rfl⟩
  · by_cases h : 0 < balance ∧ 1000000 ≤ min (balance * 10 ^ 6) bot.config.initialAmount
    · obtain ⟨eq, eb, es, ebq, ebs, enb, ens⟩ := hhigh h
      have hfl : (1000000 : ℤ) ≤ ⌊min (balance * 10 ^ 6) bot.config.initialAmount⌋ := by
        rw [Int.le_floor]
        push_cast
        exact h.2
      refine ⟨_, eb, es, eq, ebq, ebs, by simp [hfl], ?_, ?_⟩
      · intro p hp
        rw [enb p hp]
        exact hfl
      · intro p hp
        rw [ens p hp]
        exact hfl
    · have h2 : balance ≤ 0 ∨ min (balance * 10 ^ 6) bot.config.initialAmount < 1000000 := by
        by_cases hb : balance ≤ 0
        · exact Or.inl hb
        · exact Or.inr (not_le.mp fun hle => h ⟨not_le.mp hb, hle⟩)
      obtain ⟨-, e1, e2, e3⟩ := hlow h2
      exact ⟨[], [], [], by simp [e1, e2, e3]⟩
  · exact ⟨nq, nb, ns, cq, cb, cs, fun q hq => (cnq q hq).2, fun p hp => (cnb p hp).2,
      fun p hp => (cns p hp).2⟩

theorem dustEnv_getBalance_USDT (c : Conn) :
    getBalance dustEnv exampleConfig "USDT" 0 c = (1 / 2, c.next) := by
  rw [getBalance_eq]
  simp [getBalanceBody, isNativeToken, getFungibleAssetBalance, fungibleAssetAmount, dustEnv,
    lossEnv]
  norm_num

theorem swap_below_minimum_never_submitted_witness :
    lossBot.currentPool = some examplePool ∧
      ((executeSwap dustEnv lossBot true World.initial).1 = false ∧
        (executeSwap dustEnv lossBot true World.initial).2.quotes = [] ∧
        (executeSwap dustEnv lossBot true World.initial).2.built = [] ∧
        (executeSwap dustEnv lossBot true World.initial).2.submitted = []) ∧
      ((executeSwapWithCustomAmount dustEnv lossBot true 999999 World.initial).1 = false ∧
        (executeSwapWithCustomAmount dustEnv lossBot true 999999 World.initial).2.quotes = [] ∧
        (executeSwapWithCustomAmount dustEnv lossBot true 999999 World.initial).2.built = [] ∧
        (executeSwapWithCustomAmount dustEnv lossBot true 999999 World.initial).2.submitted
          = []) := by
  have h := swap_below_minimum_never_submitted dustEnv lossBot examplePool true 999999
    World.initial (1 / 2) rfl
    (by simp [lossBot, examplePool, dustEnv_getBalance_USDT])
  exact ⟨rfl, h.1 (by norm_num [lossBot, exampleConfig]), h.2.1 (by norm_num)⟩

/-! ## C2: the loss percentage -/

theorem lossEnv_getBalance_USDT (c : Conn) :
    getBalance lossEnv exampleConfig "USDT" 0 c = (90, c.next) := by
  rw [getBalance_eq]
  simp [getBalanceBody, isNativeToken, getFungibleAssetBalance, fungibleAssetAmount, lossEnv]
  norm_num

theorem lossEnv_getBalance_USDC (c : Conn) :
    getBalance lossEnv exampleConfig "USDC" 0 c = (95, c.next) := by
  rw [getBalance_eq]
  simp [getBalanceBody, isNativeToken, getFungibleAssetBalance, fungibleAssetAmount, lossEnv]
  norm_num

/-- C2. With a pool and a baseline `B ≠ 0`, `calculateCurrentLoss` returns
`max 0 ((B - (a + b)) / B * 100)` for the current balances `a` and `b`; with
`B = 0` or without a pool it returns `0`; the result is never negative and a
net gain gives `0`.  The exported `calculateLoss` obeys the same formula on
the totals of its two arguments, agrees with `calculateCurrentLoss` on the
same balances, and gives 7.5 for baseline 100 + 100 and current 90 + 95. -/
theorem calculateCurrentLoss_formula (env : Env) (bot : TappSwapBot) (pool : Pool) (c : Conn)
    (initialBalances currentBalances : Balances) (a b : ℚ)
    (hpool : bot.currentPool = some pool)
    (ha : (getBalance env bot.config pool.tokenA 0 c).1 = a)
    (hb : (getBalance env bot.config pool.tokenB 0
            (getBalance env bot.config pool.tokenA 0 c).2).1 = b) :
    (bot.initialTotalValue ≠ 0 →
        (calculateCurrentLoss env bot c).1 =
          max 0 ((bot.initialTotalValue - (a + b)) / bot.initialTotalValue * 100)) ∧
      (bot.initialTotalValue = 0 → (calculateCurrentLoss env bot c).1 = 0) ∧
      (calculateCurrentLoss env { bot with currentPool := none } c).1 = 0 ∧
      0 ≤ (calculateCurrentLoss env bot c).1 ∧
      (0 < bot.initialTotalValue → bot.initialTotalValue ≤ a + b →
        (calculateCurrentLoss env bot c).1 = 0) ∧
      (initialBalances.tokenA + initialBalances.tokenB ≠ 0 →
        calculateLoss initialBalances currentBalances =
          max 0 ((initialBalances.tokenA + initialBalances.tokenB -
                (currentBalances.tokenA + currentBalances.tokenB)) /
              (initialBalances.tokenA + initialBalances.tokenB) * 100)) ∧
      (initialBalances.tokenA + initialBalances.tokenB = 0 →
        calculateLoss initialBalances currentBalances = 0) ∧
      0 ≤ calculateLoss initialBalances currentBalances ∧
      (initialBalances.tokenA + initialBalances.tokenB = bot.initialTotalValue →
        calculateLoss initialBalances { tokenA := a, tokenB := b } =
          (calculateCurrentLoss env bot c).1) ∧
      calculateLoss { tokenA := 100, tokenB := 100 } { tokenA := 90, tokenB := 95 } = 15 / 2 := by
  have hne : bot.initialTotalValue ≠ 0 →
      (calculateCurrentLoss env bot c).1 =
        max 0 ((bot.initialTotalValue - (a + b)) / bot.initialTotalValue * 100) := by
    intro h
    simp only [calculateCurrentLoss, hpool, if_neg h, ha, hb]
  have hz : bot.initialTotalValue = 0 → (calculateCurrentLoss env bot c).1 = 0 := by
    intro h
    simp only [calculateCurrentLoss, hpool, if_pos h]
  have hnn : 0 ≤ (calculateCurrentLoss env bot c).1 := by
    by_cases h : bot.initialTotalValue = 0
    · rw [hz h]
    · rw [hne h]
      exact le_max_left _ _
  refine ⟨hne, hz, rfl, hnn, ?_, ?_, ?_, ?_, ?_, ?_⟩
  · intro hpos hge
    rw [hne (ne_of_gt hpos)]
    apply max_eq_left
    apply mul_nonpos_of_nonpos_of_nonneg _ (by norm_num)
    exact div_nonpos_of_nonpos_of_nonneg (by linarith) (le_of_lt hpos)
  · intro h
    simp only [calculateLoss, if_neg h]
  · intro h
    simp only [calculateLoss, if_pos h]
  · unfold calculateLoss
    dsimp only
    split
    · exact le_refl 0
    · exact le_max_left _ _
  · intro h
    by_cases h0 : bot.initialTotalValue = 0
    · rw [hz h0]
      simp only [calculateLoss, h, if_pos h0]
    · rw [hne h0]
      simp only [calculateLoss, h, if_neg h0]
  · norm_num [calculateLoss]

theorem calculateCurrentLoss_formula_witness :
    lossBot.currentPool = some examplePool ∧
      (calculateCurrentLoss lossEnv lossBot World.initial.conn).1 = 15 / 2 := by
  have h := calculateCurrentLoss_formula lossEnv lossBot examplePool World.initial.conn
    { tokenA := 100, tokenB := 100 } { tokenA := 90, tokenB := 95 } 90 95 rfl
    (by simp [lossBot, examplePool, lossEnv_getBalance_USDT])
    (by simp [lossBot, examplePool, lossEnv_getBalance_USDT, lossEnv_getBalance_USDC])
  refine ⟨rfl, ?_⟩
  rw [h.1 (by norm_num [lossBot])]
  norm_num [lossBot]

/-! ## C3: the slippage guard of the estimate -/

/-- C3. Every estimate that `estimateSwap` returns has
`minAmountOut = floor(amountOut * (1 - slippageTolerance / 100))`; and for
every quote without an error object whose output amount, as read by
`result.amountOut || result.estAmount`, is `amountOut`, an estimate with that
`amountOut` is returned. -/
theorem estimateSwap_minAmountOut (env : Env) (cfg : Config) (params : SwapParams) (w : World)
    (result : QuoteResult) (amountOut : ℚ)
    (hquote : env.getEstSwapAmount w.conn.tick
        { poolId := params.poolInfo.poolId, a2b := params.a2b, field := "input",
          amount := params.amountIn, pair := [0, 1] } = .ok (some result))
    (herr : result.error = none)
    (hout : jsOr result.amountOut result.estAmount = some amountOut) :
    (∃ estimate, (estimateSwap env cfg params w).1 = some estimate ∧
        estimate.amountOut = amountOut ∧
        estimate.minAmountOut = ⌊amountOut * (1 - cfg.slippageTolerance / 100)⌋) ∧
      (∀ (env1 : Env) (w1 : World) (estimate : SwapEstimate),
        (estimateSwap env1 cfg params w1).1 = some estimate →
          estimate.minAmountOut =
            ⌊estimate.amountOut * (1 - cfg.slippageTolerance / 100)⌋) := by
  constructor
  · simp only [estimateSwap, hquote, herr, hout]
    exact ⟨_, rfl, rfl, rfl⟩
  · intro env1 w1 estimate h
    unfold estimateSwap at h
    dsimp only at h
    split at h
    · simp at h
    · simp at h
    · split at h
      · simp at h
      · split at h
        · simp at h
        · simp only [Option.some.injEq] at h
          rw [← h]

theorem estimateSwap_minAmountOut_witness :
    ∃ estimate, (estimateSwap quoteEnv exampleConfig exampleParams World.initial).1 =
        some estimate ∧ estimate.amountOut = 1000000 ∧ estimate.minAmountOut = 990000 := by
  obtain ⟨estimate, h1, h2, h3⟩ :=
    (estimateSwap_minAmountOut quoteEnv exampleConfig exampleParams World.initial
      { error := none, amountOut := some 1000000, estAmount := none, amountIn := none,
        amount := none, priceImpact := none, fee := none } 1000000 rfl rfl
      (by simp [jsOr])).1
  refine ⟨estimate, h1, h2, ?_⟩
  rw [h3]
  norm_num [exampleConfig]

/-- C5. For a positive balance of the input token, every request that
`executeSwap` sends to the quoter and every payload it builds or submits
carries `amountIn = floor(min(balance * 10^6, initialAmount))`, the quoter is
asked exactly once with that amount when it is at least 1,000,000, and the
amount exceeds neither the balance in atomic units nor the configured
maximum.  For a non-positive balance `executeSwap` returns `false` and
nothing is quoted, built or submitted. -/
theorem executeSwap_amountIn (env : Env) (bot : TappSwapBot) (pool : Pool) (a2b : Bool)
    (w0 : World) (balance : ℚ)
    (hpool : bot.currentPool = some pool)
    (hbal : (getBalance env bot.config (if a2b then pool.tokenA else pool.tokenB) 0
              w0.conn).1 = balance) :
    (0 < balance →
        (∃ newQuotes newBuilt newSubmitted,
          (executeSwap env bot a2b w0).2.quotes = w0.quotes ++ newQuotes ∧
            (executeSwap env bot a2b w0).2.built = w0.built ++ newBuilt ∧
            (executeSwap env bot a2b w0).2.submitted = w0.submitted ++ newSubmitted ∧
            (∀ q ∈ newQuotes,
              q.amount = ⌊min (balance * 10 ^ 6) bot.config.initialAmount⌋) ∧
            (∀ p ∈ newBuilt,
              p.inputAmount = ⌊min (balance * 10 ^ 6) bot.config.initialAmount⌋) ∧
            (∀ p ∈ newSubmitted,
              p.inputAmount = ⌊min (balance * 10 ^ 6) bot.config.initialAmount⌋)) ∧
          (1000000 ≤ min (balance * 10 ^ 6) bot.config.initialAmount →
            (executeSwap env bot a2b w0).2.quotes =
              w0.quotes ++
                [{ poolId := pool.poolId, a2b := a2b, field := "input",
                   amount := ⌊min (balance * 10 ^ 6) bot.config.initialAmount⌋,
                   pair := [0, 1] }]) ∧
          ((⌊min (balance * 10 ^ 6) bot.config.initialAmount⌋ : ℚ) ≤ balance * 10 ^ 6) ∧
          ((⌊min (balance * 10 ^ 6) bot.config.initialAmount⌋ : ℚ) ≤
            bot.config.initialAmount)) ∧
      (balance ≤ 0 →
        (executeSwap env bot a2b w0).1 = false ∧
          (executeSwap env bot a2b w0).2.quotes = w0.quotes ∧
          (executeSwap env bot a2b w0).2.built = w0.built ∧
          (executeSwap env bot a2b w0).2.submitted = w0.submitted) := by
  obtain ⟨hlow, hhigh⟩ := executeSwap_logs env bot pool a2b w0 balance hpool hbal
  refine ⟨fun hpos => ⟨?_, fun hge => (hhigh ⟨hpos, hge⟩).1, ?_, ?_⟩, fun h => hlow (Or.inl h)⟩
  · by_cases hge : 1000000 ≤ min (balance * 10 ^ 6) bot.config.initialAmount
    · obtain ⟨eq, nb, ns, eb, es, enb, ens⟩ := hhigh ⟨hpos, hge⟩
      exact ⟨_, nb, ns, eq, eb, es, by simp, enb, ens⟩
    · obtain ⟨-, e1, e2, e3⟩ := hlow (Or.inr (not_le.mp hge))
      exact ⟨[], [], [], by simp [e1, e2, e3]⟩
  · exact le_trans (Int.floor_le _) (min_le_left _ _)
  · exact le_trans (Int.floor_le _) (min_le_right _ _)

theorem executeSwap_amountIn_witness :
    lossBot.currentPool = some examplePool ∧
      (executeSwap lossEnv lossBot true World.initial).2.quotes =
        [{ poolId := "0xpool", a2b := true, field := "input", amount := 10000000,
           pair := [0, 1] }] := by
  have h := executeSwap_amountIn lossEnv lossBot examplePool true World.initial 90 rfl
    (by simp [lossBot, examplePool, lossEnv_getBalance_USDT])
  refine ⟨rfl, ?_⟩
  have h2 := (h.1 (by norm_num)).2.1 (by norm_num [lossBot, exampleConfig])
  rw [h2]
  norm_num [lossBot, exampleConfig, examplePool, World.initial]

/-! ## C6: alternation of the direction -/

theorem alternating_snoc (n : Nat) :
    (List.range (n + 1)).map (fun k => decide (k % 2 = 0)) =
      (List.range n).map (fun k => decide (k % 2 = 0)) ++ [decide (n % 2 = 0)] := by
  rw [List.range_succ, List.map_append]
  rfl

theorem productionIteration_direction (env : Env) (bot : TappSwapBot) (w0 : World)
    (s : LoopState)
    (h : s.world.swapCalls =
          w0.swapCalls ++ (List.range s.statistics.totalSwaps).map (fun k => decide (k % 2 = 0)) ∧
        s.currentDirection = decide (s.statistics.totalSwaps % 2 = 0)) :
    (productionIteration env bot s).1.world.swapCalls =
        w0.swapCalls ++
          (List.range (productionIteration env bot s).1.statistics.totalSwaps).map
            (fun k => decide (k % 2 = 0)) ∧
      (productionIteration env bot s).1.currentDirection =
        decide ((productionIteration env bot s).1.statistics.totalSwaps % 2 = 0) := by
  obtain ⟨h1, -, -, -, h5, -, h7⟩ := lossCheckStep_frame env bot s
  unfold productionIteration
  split
  · dsimp only
    rw [h1, h5, h7]
    exact h
  · obtain ⟨g1, -, -, g4, -, g6, -⟩ := swapStep_effect env bot (lossCheckStep env bot s).1
    dsimp only
    rw [g1, g4, g6, h1, h5, h7, h.1, h.2, alternating_snoc, List.append_assoc]
    refine ⟨rfl, ?_⟩
    rcases Nat.mod_two_eq_zero_or_one s.statistics.totalSwaps with hm | hm
    · have : (s.statistics.totalSwaps + 1) % 2 = 1 := by omega
      simp [hm, this]
    · have : (s.statistics.totalSwaps + 1) % 2 = 0 := by omega
      simp [hm, this]

theorem swapStep_failure (env : Env) (bot : TappSwapBot) (s : LoopState)
    (h : (executeSwap env bot s.currentDirection s.world).1 = false) :
    (swapStep env bot s).statistics.failedSwaps = s.statistics.failedSwaps + 1 ∧
      (swapStep env bot s).statistics.successfulSwaps = s.statistics.successfulSwaps ∧
      (swapStep env bot s).statistics.totalSwaps = s.statistics.totalSwaps + 1 ∧
      (swapStep env bot s).currentDirection = !s.currentDirection := by
  unfold swapStep
  simp only [h, Bool.false_eq_true, if_false, and_self]

/-- C6. In the continuous loop, under any upstream behaviour and after any
number of passes, the directions of the swap attempts made so far are
`A->B, B->A, A->B, ...`: attempt number `k` (counted from 0) goes A to B
exactly when `k` is even, there are `totalSwaps` of them, and the direction
held for the next attempt continues the alternation.  Every attempt flips
the direction, whatever its outcome; in particular the skip on a
non-positive balance is counted as a failed attempt and flips the direction
too. -/
theorem direction_alternates_on_every_attempt (env : Env) (bot : TappSwapBot)
    (signals : List Bool) (w0 : World) :
    (runProductionMode env bot signals w0).world.swapCalls =
        w0.swapCalls ++
          (List.range (runProductionMode env bot signals w0).statistics.totalSwaps).map
            (fun k => decide (k % 2 = 0)) ∧
      (runProductionMode env bot signals w0).currentDirection =
        decide ((runProductionMode env bot signals w0).statistics.totalSwaps % 2 = 0) ∧
      (∀ s : LoopState,
        (swapStep env bot s).currentDirection = !s.currentDirection ∧
          (swapStep env bot s).world.swapCalls = s.world.swapCalls ++ [s.currentDirection]) ∧
      (∀ (s : LoopState) (pool : Pool), bot.currentPool = some pool →
        (getBalance env bot.config (if s.currentDirection then pool.tokenA else pool.tokenB) 0
            s.world.conn).1 ≤ 0 →
        (swapStep env bot s).statistics.failedSwaps = s.statistics.failedSwaps + 1 ∧
          (swapStep env bot s).statistics.totalSwaps = s.statistics.totalSwaps + 1 ∧
          (swapStep env bot s).currentDirection = !s.currentDirection) := by
  have hinv := runLoop_invariant env bot
    (fun s => s.world.swapCalls =
        w0.swapCalls ++ (List.range s.statistics.totalSwaps).map (fun k => decide (k % 2 = 0)) ∧
      s.currentDirection = decide (s.statistics.totalSwaps % 2 = 0))
    (fun s hs => productionIteration_direction env bot w0 s hs)
    (fun s hs => hs) signals (initialLoopState w0) (by simp [initialLoopState, initialStatistics])
  refine ⟨hinv.1, hinv.2, fun s => ⟨(swapStep_effect env bot s).2.2.2.1,
    (swapStep_effect env bot s).2.2.2.2.2.1⟩, ?_⟩
  intro s pool hpool hzero
  have hfalse := ((executeSwap_logs env bot pool s.currentDirection s.world _ hpool rfl).1
    (Or.inl hzero)).1
  obtain ⟨h1, -, h3, h4⟩ := swapStep_failure env bot s hfalse
  exact ⟨h1, h3, h4⟩

theorem direction_alternates_on_every_attempt_witness :
    lossBot.currentPool = some examplePool ∧
      (getBalance throttledEnv lossBot.config "USDT" 0 World.initial.conn).1 ≤ 0 ∧
      (swapStep throttledEnv lossBot (initialLoopState World.initial)).statistics.failedSwaps
        = 1 ∧
      (swapStep throttledEnv lossBot (initialLoopState World.initial)).currentDirection
        = false := by
  have hzero : (getBalance throttledEnv lossBot.config "USDT" 0 World.initial.conn).1 ≤ 0 := by
    rw [getBalance_coin_error throttledEnv lossBot.config "USDT" 0 World.initial.conn []
      (some 429) (by decide) rfl (by simp [fungibleAssetAmount]) (fun _ => rfl)]
  have h := (direction_alternates_on_every_attempt throttledEnv lossBot [] World.initial).2.2.2
    (initialLoopState World.initial) examplePool rfl hzero
  exact ⟨rfl, hzero, h.1, h.2.2⟩

/-! ## C7: the periodic loss check -/

theorem runLoop_of_not_running (env : Env) (bot : TappSwapBot) (signals : List Bool)
    (s : LoopState) (h : s.statistics.isRunning = false) : runLoop env bot signals s = s := by
  cases signals with
  | nil => rfl
  | cons signal rest => simp [runLoop, h]

theorem runLoop_append (env : Env) (bot : TappSwapBot) (pre rest : List Bool) :
    ∀ s : LoopState, runLoop env bot (pre ++ rest) s = runLoop env bot rest (runLoop env bot pre s) := by
  induction pre with
  | nil => intro s; rfl
  | cons signal pre ih =>
    intro s
    simp only [List.cons_append, runLoop]
    split
    · split
      · rw [runLoop_of_not_running env bot rest _ rfl]
      · exact ih _
    · next h =>
      rw [runLoop_of_not_running env bot rest s (by simpa using h)]

theorem lossCheckStep_lossChecks (env : Env) (bot : TappSwapBot) (s : LoopState) :
    (lossCheckStep env bot s).1.lossChecks =
      if s.swapCount % 5 = 0 ∧ 0 < s.swapCount then
        s.lossChecks ++ [(s.swapCount, (calculateCurrentLoss env bot s.world.conn).1)]
      else s.lossChecks := by
  unfold lossCheckStep lossCheckDue
  by_cases h : s.swapCount % 5 = 0 ∧ 0 < s.swapCount
  · simp [h.1, h.2]
  · rw [if_neg h]
    have : ¬((s.swapCount % 5 == 0 && decide (s.swapCount > 0)) = true) := by
      simpa using h
    rw [if_neg this]

theorem lossCheckStep_break (env : Env) (bot : TappSwapBot) (s : LoopState) :
    (lossCheckStep env bot s).2 = true ↔
      (s.swapCount % 5 = 0 ∧ 0 < s.swapCount) ∧
        bot.config.maxLossPercentage ≤ (calculateCurrentLoss env bot s.world.conn).1 := by
  unfold lossCheckStep lossCheckDue
  by_cases h : s.swapCount % 5 = 0 ∧ 0 < s.swapCount
  · simp [h.1, h.2]
  · have : ¬((s.swapCount % 5 == 0 && decide (s.swapCount > 0)) = true) := by
      simpa using h
    rw [if_neg this]
    simp [h]

theorem productionIteration_lossChecks (env : Env) (bot : TappSwapBot) (s : LoopState) :
    (productionIteration env bot s).1.lossChecks = (lossCheckStep env bot s).1.lossChecks := by
  unfold productionIteration
  split
  · rfl
  · exact (swapStep_effect env bot _).2.2.2.2.2.2

theorem productionIteration_counts (env : Env) (bot : TappSwapBot) (s : LoopState)
    (h : s.swapCount = s.statistics.successfulSwaps ∧
        ∀ e ∈ s.lossChecks, e.1 % 5 = 0 ∧ 0 < e.1) :
    (productionIteration env bot s).1.swapCount =
        (productionIteration env bot s).1.statistics.successfulSwaps ∧
      ∀ e ∈ (productionIteration env bot s).1.lossChecks, e.1 % 5 = 0 ∧ 0 < e.1 := by
  constructor
  · obtain ⟨-, h2, -, -, -, h6, -⟩ := lossCheckStep_frame env bot s
    unfold productionIteration
    split
    · dsimp only
      omega
    · obtain ⟨-, -, -, -, g5, -⟩ := swapStep_effect env bot (lossCheckStep env bot s).1
      dsimp only
      omega
  · rw [productionIteration_lossChecks, lossCheckStep_lossChecks]
    split
    · next hdue =>
      intro e he
      rcases List.mem_append.mp he with he | he
      · exact h.2 e he
      · simp only [List.mem_singleton] at he
        rw [he]
        exact hdue
    · exact h.2

/-- C7. In the continuous loop `swapCount` is the number of completed
(successful) swaps.  A pass of the loop recomputes the loss exactly when
`swapCount` is a positive multiple of 5, so every recorded check was made at
5, 10, 15, ... completed swaps and none before the first swap; and when the
recomputed loss is at least `maxLossPercentage` the loop is left at once:
whatever is observed afterwards, no further swap is attempted. -/
theorem loss_check_every_fifth_swap (env : Env) (bot : TappSwapBot) (pre : List Bool)
    (signal : Bool) (rest : List Bool) (w0 : World) (s : LoopState)
    (hs : runProductionMode env bot pre w0 = s)
    (hrun : s.statistics.isRunning = true) :
    s.swapCount = s.statistics.successfulSwaps ∧
      (∀ e ∈ s.lossChecks, e.1 % 5 = 0 ∧ 0 < e.1) ∧
      ((s.swapCount % 5 = 0 ∧ 0 < s.swapCount) →
        (productionIteration env bot s).1.lossChecks =
          s.lossChecks ++ [(s.swapCount, (calculateCurrentLoss env bot s.world.conn).1)]) ∧
      (¬(s.swapCount % 5 = 0 ∧ 0 < s.swapCount) →
        (productionIteration env bot s).1.lossChecks = s.lossChecks) ∧
      ((s.swapCount % 5 = 0 ∧ 0 < s.swapCount) →
        bot.config.maxLossPercentage ≤ (calculateCurrentLoss env bot s.world.conn).1 →
        (runProductionMode env bot (pre ++ signal :: rest) w0).statistics.isRunning = false ∧
          (runProductionMode env bot (pre ++ signal :: rest) w0).statistics.totalSwaps =
            s.statistics.totalSwaps ∧
          (runProductionMode env bot (pre ++ signal :: rest) w0).world.swapCalls =
            s.world.swapCalls) := by
  have hinv := runLoop_invariant env bot
    (fun s => s.swapCount = s.statistics.successfulSwaps ∧
      ∀ e ∈ s.lossChecks, e.1 % 5 = 0 ∧ 0 < e.1)
    (fun s hs => productionIteration_counts env bot s hs)
    (fun s hs => hs) pre (initialLoopState w0)
    ⟨rfl, by simp [initialLoopState]⟩
  unfold runProductionMode at hs
  rw [hs] at hinv
  refine ⟨hinv.1, hinv.2, ?_, ?_, ?_⟩
  · intro hdue
    rw [productionIteration_lossChecks, lossCheckStep_lossChecks, if_pos hdue]
  · intro hdue
    rw [productionIteration_lossChecks, lossCheckStep_lossChecks, if_neg hdue]
  · intro hdue hloss
    have hbrk : (lossCheckStep env bot s).2 = true :=
      (lossCheckStep_break env bot s).mpr ⟨hdue, hloss⟩
    obtain ⟨h1, -, -, -, -, -, h7⟩ := lossCheckStep_frame env bot s
    unfold runProductionMode
    rw [runLoop_append, hs]
    simp only [runLoop, hrun, if_true, productionIteration, hbrk]
    exact ⟨rfl, h1, h7⟩

theorem sixEnv_getBalance (tokenAddress : String)
    (h : tokenAddress = "USDT" ∨ tokenAddress = "USDC") (c : Conn) :
    getBalance sixEnv exampleConfig tokenAddress 0 c = (94, c.next) := by
  rw [getBalance_eq]
  rcases h with rfl | rfl <;>
    simp [getBalanceBody, isNativeToken, getFungibleAssetBalance, fungibleAssetAmount, sixEnv,
      lossEnv] <;>
    norm_num

theorem sixEnv_calculateCurrentLoss (c : Conn) :
    (calculateCurrentLoss sixEnv lossBot c).1 = 6 := by
  simp only [calculateCurrentLoss, lossBot, examplePool,
    sixEnv_getBalance "USDT" (Or.inl rfl), sixEnv_getBalance "USDC" (Or.inr rfl)]
  norm_num


theorem sixEnv_getBalance_tokenIn (a2b : Bool) (c : Conn) :
    getBalance sixEnv exampleConfig (if a2b then "USDT" else "USDC") 0 c = (94, c.next) := by
  cases a2b
  · simp only [Bool.false_eq_true, if_false]
    exact sixEnv_getBalance "USDC" (Or.inr rfl) c
  · simp only [if_true]
    exact sixEnv_getBalance "USDT" (Or.inl rfl) c

theorem sixEnv_estimateSwap_eq (params : SwapParams) (w : World) :
    (estimateSwap sixEnv exampleConfig params w).1 =
      some { amountOut := 9950000, amountIn := params.amountIn, priceImpact := 0, fee := 0,
             minAmountOut := ⌊(9950000 : ℚ) * (1 - exampleConfig.slippageTolerance / 100)⌋ } := by
  simp [estimateSwap, sixEnv, lossEnv, jsOr, jsOrElse]

theorem sixEnv_performSwap (params : SwapParams) (estimate : SwapEstimate) (w : World)
    (h : params.poolInfo.poolType = "AMM") :
    (performSwap sixEnv exampleConfig params estimate w).1 = some "0xhash" := by
  simp only [performSwap, selectPayload, h, if_true]
  rw [submitTransaction_eq]
  rfl

theorem sixEnv_executeSwap (a2b : Bool) (w : World) :
    (executeSwap sixEnv lossBot a2b w).1 = true := by
  have hp : lossBot.currentPool = some examplePool := rfl
  have hc : lossBot.config = exampleConfig := rfl
  have ha : examplePool.tokenA = "USDT" := rfl
  have hb : examplePool.tokenB = "USDC" := rfl
  have h1 : ¬((94 : ℚ) ≤ 0) := by norm_num
  have h2 : ¬(min ((94 : ℚ) * 10 ^ 6) exampleConfig.initialAmount < 1000000) := by
    norm_num [exampleConfig]
  unfold executeSwap
  simp only [hp, hc, ha, hb, sixEnv_getBalance_tokenIn, if_neg h1, if_neg h2,
    sixEnv_estimateSwap_eq]
  rw [sixEnv_performSwap _ _ _ rfl]
  rfl

theorem sixEnv_iteration (s : LoopState) (h : ¬(s.swapCount % 5 = 0 ∧ 0 < s.swapCount)) :
    (productionIteration sixEnv lossBot s).2 = false ∧
      (productionIteration sixEnv lossBot s).1.swapCount = s.swapCount + 1 ∧
      (productionIteration sixEnv lossBot s).1.statistics.totalSwaps =
        s.statistics.totalSwaps + 1 ∧
      (productionIteration sixEnv lossBot s).1.statistics.isRunning =
        s.statistics.isRunning := by
  have hdue : lossCheckDue s = false := by
    unfold lossCheckDue
    simpa using h
  have hstep : lossCheckStep sixEnv lossBot s = (s, false) := by
    simp [lossCheckStep, hdue]
  simp only [productionIteration, hstep, Bool.false_eq_true, if_false, swapStep,
    sixEnv_executeSwap, if_true]
  exact ⟨trivial, trivial, trivial, trivial⟩

theorem sixEnv_run (w0 : World) :
    ∀ n, n ≤ 5 →
      (runProductionMode sixEnv lossBot (List.replicate n false) w0).statistics.isRunning
          = true ∧
        (runProductionMode sixEnv lossBot (List.replicate n false) w0).swapCount = n ∧
        (runProductionMode sixEnv lossBot (List.replicate n false) w0).statistics.totalSwaps
          = n := by
  intro n
  induction n with
  | zero => intro _; exact ⟨rfl, rfl, rfl⟩
  | succ n ih =>
    intro hn
    obtain ⟨h1, h2, h3⟩ := ih (by omega)
    unfold runProductionMode at h1 h2 h3 ⊢
    rw [List.replicate_succ', runLoop_append]
    obtain ⟨g1, g2, g3, g4⟩ := sixEnv_iteration
      (runLoop sixEnv lossBot (List.replicate n false) (initialLoopState w0))
      (by rw [h2]; omega)
    simp only [runLoop, h1, if_true, g1, Bool.false_eq_true, if_false]
    rw [g2, g3, g4, h1, h2, h3]
    exact ⟨rfl, rfl, rfl⟩

theorem loss_check_every_fifth_swap_witness :
    (runProductionMode sixEnv lossBot (List.replicate 5 false)
        World.initial).statistics.isRunning = true ∧
      (runProductionMode sixEnv lossBot (List.replicate 5 false) World.initial).swapCount = 5 ∧
      (runProductionMode sixEnv lossBot (List.replicate 5 false ++ false :: [false, false])
        World.initial).statistics.isRunning = false ∧
      (runProductionMode sixEnv lossBot (List.replicate 5 false ++ false :: [false, false])
        World.initial).statistics.totalSwaps = 5 := by
  obtain ⟨h1, h2, h3⟩ := sixEnv_run World.initial 5 (le_refl 5)
  have h := loss_check_every_fifth_swap sixEnv lossBot (List.replicate 5 false) false
    [false, false] World.initial _ rfl h1
  obtain ⟨g1, g2, -⟩ := h.2.2.2.2 (by rw [h2]; exact ⟨rfl, by norm_num⟩)
    (by rw [sixEnv_calculateCurrentLoss]; norm_num [lossBot, exampleConfig])
  exact ⟨h1, h2, g1, g2.trans h3⟩

/-! ## C8: the attempts of debug mode -/

theorem runDebugMode_of_forward_failure (env : Env) (bot : TappSwapBot) (pool : Pool)
    (w0 : World) (hpool : bot.currentPool = some pool)
    (h : (executeSwapWithCustomAmount env bot true bot.config.testAmount
          (w0.withConn (printBalances env bot pool w0.conn))).1 = false) :
    (runDebugMode env bot initialStatistics w0).1.totalSwaps = 1 ∧
      (runDebugMode env bot initialStatistics w0).2.swapCalls = w0.swapCalls ++ [true] := by
  unfold runDebugMode
  simp only [hpool, h, Bool.false_eq_true, if_false]
  exact ⟨rfl, by simp [World.withConn, executeSwapWithCustomAmount_swapCalls]⟩

/-- C8 (as amended). With a resolved pool, debug mode always makes the
forward attempt (A to B, with `testAmount`); it makes the reverse attempt
(B to A) exactly when the forward swap succeeded, and never a third.  So it
ends with `totalSwaps = 2` after a successful forward swap and with
`totalSwaps = 1` after a failed one. -/
theorem runDebugMode_attempts (env : Env) (bot : TappSwapBot) (pool : Pool) (w0 : World)
    (hpool : bot.currentPool = some pool) :
    ((executeSwapWithCustomAmount env bot true bot.config.testAmount
          (w0.withConn (printBalances env bot pool w0.conn))).1 = true →
        (runDebugMode env bot initialStatistics w0).1.totalSwaps = 2 ∧
          (runDebugMode env bot initialStatistics w0).2.swapCalls =
            w0.swapCalls ++ [true, false]) ∧
      ((executeSwapWithCustomAmount env bot true bot.config.testAmount
          (w0.withConn (printBalances env bot pool w0.conn))).1 = false →
        (runDebugMode env bot initialStatistics w0).1.totalSwaps = 1 ∧
          (runDebugMode env bot initialStatistics w0).2.swapCalls = w0.swapCalls ++ [true]) := by
  constructor
  · intro h
    unfold runDebugMode
    simp only [hpool, h, if_true]
    constructor
    · split_ifs <;> rfl
    · split_ifs <;>
        simp [World.withConn, executeSwap_swapCalls, executeSwapWithCustomAmount_swapCalls]
  · exact runDebugMode_of_forward_failure env bot pool w0 hpool

theorem sixEnv_executeSwapWithCustomAmount (a2b : Bool) (customAmount : ℚ) (w : World)
    (h1 : ¬(customAmount < 1000000)) (h2 : ¬((94 : ℚ) * 10 ^ 6 < customAmount)) :
    (executeSwapWithCustomAmount sixEnv lossBot a2b customAmount w).1 = true := by
  have hp : lossBot.currentPool = some examplePool := rfl
  have hc : lossBot.config = exampleConfig := rfl
  have ha : examplePool.tokenA = "USDT" := rfl
  have hb : examplePool.tokenB = "USDC" := rfl
  unfold executeSwapWithCustomAmount
  simp only [hp, hc, ha, hb, sixEnv_getBalance_tokenIn, if_neg h1, if_neg h2,
    sixEnv_estimateSwap_eq]
  rw [sixEnv_performSwap _ _ _ rfl]

theorem runDebugMode_attempts_witness :
    lossBot.currentPool = some examplePool ∧
      (runDebugMode sixEnv lossBot initialStatistics World.initial).1.totalSwaps = 2 ∧
      (runDebugMode sixEnv lossBot initialStatistics World.initial).2.swapCalls =
        [true, false] := by
  have h := (runDebugMode_attempts sixEnv lossBot examplePool World.initial rfl).1
    (sixEnv_executeSwapWithCustomAmount true _ _ (by norm_num [lossBot, exampleConfig])
      (by norm_num [lossBot, exampleConfig]))
  exact ⟨rfl, h.1, h.2⟩

theorem dustEnv_getBalance_tokenIn (a2b : Bool) (c : Conn) :
    (getBalance dustEnv exampleConfig (if a2b then "USDT" else "USDC") 0 c).1 = 1 / 2 := by
  rw [getBalance_eq]
  cases a2b <;>
    simp [getBalanceBody, isNativeToken, getFungibleAssetBalance, fungibleAssetAmount, dustEnv,
      lossEnv] <;>
    norm_num

theorem dustEnv_executeSwapWithCustomAmount (a2b : Bool) (customAmount : ℚ) (w : World)
    (h1 : ¬(customAmount < 1000000)) (h2 : (1 / 2 : ℚ) * 10 ^ 6 < customAmount) :
    (executeSwapWithCustomAmount dustEnv lossBot a2b customAmount w).1 = false := by
  have hp : lossBot.currentPool = some examplePool := rfl
  have hc : lossBot.config = exampleConfig := rfl
  have ha : examplePool.tokenA = "USDT" := rfl
  have hb : examplePool.tokenB = "USDC" := rfl
  unfold executeSwapWithCustomAmount
  simp only [hp, hc, ha, hb, dustEnv_getBalance_tokenIn, if_neg h1, if_pos h2]

/-- C8 (counterexample). With half a USDT in the account the forward swap
of 5 USDT fails for lack of balance, and debug mode ends after that single
attempt: `totalSwaps` is 1, not 2, and no reverse attempt is made. -/
theorem runDebugMode_forward_failure_one_attempt :
    (runDebugMode dustEnv lossBot initialStatistics World.initial).1.totalSwaps = 1 ∧
      (runDebugMode dustEnv lossBot initialStatistics World.initial).1.totalSwaps ≠ 2 ∧
      (runDebugMode dustEnv lossBot initialStatistics World.initial).2.swapCalls = [true] := by
  have h := runDebugMode_of_forward_failure dustEnv lossBot examplePool World.initial rfl
    (dustEnv_executeSwapWithCustomAmount true _ _ (by norm_num [lossBot, exampleConfig])
      (by norm_num [lossBot, exampleConfig]))
  exact ⟨h.1, by rw [h.1]; decide, h.2⟩

/-! ## C9 and C10: rate limits during balance resolution -/

theorem getBalance_two_rate_limits (env : Env) (cfg : Config) (tokenAddress : String)
    (c : Conn) (balances : List FABalance)
    (hnative : isNativeToken tokenAddress = false)
    (h1 : env.getCurrentFungibleAssetBalances c.tick = .error (some 429))
    (h2 : env.getCurrentFungibleAssetBalances (c.tick + 1) = .error (some 429))
    (h3 : env.getCurrentFungibleAssetBalances (c.tick + 2) = .ok balances) :
    getBalance env cfg tokenAddress 0 c =
      if fungibleAssetAmount balances tokenAddress > 0 then
        (fungibleAssetAmount balances tokenAddress,
          { currentRpcIndex := (c.currentRpcIndex + 2) % (rpcUrlsOf cfg).length
            tick := c.tick + 3
            rpcSwitches := c.rpcSwitches + 2 })
      else
        coinFallback env tokenAddress
          { currentRpcIndex := (c.currentRpcIndex + 2) % (rpcUrlsOf cfg).length
            tick := c.tick + 3
            rpcSwitches := c.rpcSwitches + 2 } := by
  have hidx : ((c.currentRpcIndex + 1) % (rpcUrlsOf cfg).length + 1) % (rpcUrlsOf cfg).length =
      (c.currentRpcIndex + 2) % (rpcUrlsOf cfg).length := by
    rw [Nat.mod_add_mod]
  rw [getBalance_eq]
  simp only [getBalanceBody, hnative, Bool.false_eq_true, if_false, getFungibleAssetBalance, h1]
  simp only [true_and, Nat.ofNat_pos, Nat.lt_add_one, and_self, if_true,
    show (0 : Nat) < 3 from by omega]
  rw [getBalance_eq]
  simp only [getBalanceBody, hnative, Bool.false_eq_true, if_false, getFungibleAssetBalance,
    switchToNextRpc, Conn.next, h2]
  simp only [true_and, if_true, show (0 + 1 : Nat) < 3 from by omega]
  rw [getBalance_eq]
  simp only [getBalanceBody, hnative, Bool.false_eq_true, if_false, getFungibleAssetBalance,
    switchToNextRpc, Conn.next, h3, hidx]

theorem coinFallback_conn (env : Env) (tokenAddress : String) (c : Conn) :
    (coinFallback env tokenAddress c).2 = c.next := by
  unfold coinFallback getCoinBalance
  dsimp only
  split
  · next heq =>
    split at heq
    · simp at heq
    · simp only [Prod.mk.injEq] at heq
      exact heq.2.symm
  · next heq =>
    split at heq
    · simp only [Prod.mk.injEq] at heq
      exact heq.2.symm
    · simp at heq

/-- C9 (as amended). For a non-native token and a non-empty endpoint list,
when the fungible-asset query is rate limited (status 429) on the first two
attempts and answers on the third: if the third answer holds a positive
amount for the token, `getBalance` returns that amount scaled to token
units; if it holds none, `getBalance` returns the result of the legacy coin
lookup made after it.  In both cases `switchToNextRpc` has been invoked
exactly twice and the endpoint index is `(start + 2) mod len`. -/
theorem getBalance_retries_after_two_rate_limits (env : Env) (cfg : Config)
    (tokenAddress : String) (c : Conn) (balances : List FABalance)
    (hlen : 0 < (rpcUrlsOf cfg).length)
    (hnative : isNativeToken tokenAddress = false)
    (h1 : env.getCurrentFungibleAssetBalances c.tick = .error (some 429))
    (h2 : env.getCurrentFungibleAssetBalances (c.tick + 1) = .error (some 429))
    (h3 : env.getCurrentFungibleAssetBalances (c.tick + 2) = .ok balances) :
    (0 < fungibleAssetAmount balances tokenAddress →
        (getBalance env cfg tokenAddress 0 c).1 = fungibleAssetAmount balances tokenAddress) ∧
      (fungibleAssetAmount balances tokenAddress ≤ 0 →
        (getBalance env cfg tokenAddress 0 c).1 =
          (coinFallback env tokenAddress
            { currentRpcIndex := (c.currentRpcIndex + 2) % (rpcUrlsOf cfg).length
              tick := c.tick + 3
              rpcSwitches := c.rpcSwitches + 2 }).1) ∧
      (getBalance env cfg tokenAddress 0 c).2.rpcSwitches = c.rpcSwitches + 2 ∧
      (getBalance env cfg tokenAddress 0 c).2.currentRpcIndex =
        (c.currentRpcIndex + 2) % (rpcUrlsOf cfg).length ∧
      (getBalance env cfg tokenAddress 0 c).2.currentRpcIndex < (rpcUrlsOf cfg).length := by
  have h := getBalance_two_rate_limits env cfg tokenAddress c balances hnative h1 h2 h3
  have hconn : (getBalance env cfg tokenAddress 0 c).2.rpcSwitches = c.rpcSwitches + 2 ∧
      (getBalance env cfg tokenAddress 0 c).2.currentRpcIndex =
        (c.currentRpcIndex + 2) % (rpcUrlsOf cfg).length := by
    rw [h]
    split
    · exact ⟨rfl, rfl⟩
    · rw [coinFallback_conn]
      exact ⟨rfl, rfl⟩
  refine ⟨?_, ?_, hconn.1, hconn.2, ?_⟩
  · intro hpos
    rw [h, if_pos hpos]
  · intro hle
    rw [h, if_neg (not_lt.mpr hle)]
  · rw [hconn.2]
    exact Nat.mod_lt _ hlen

theorem rateLimitedEnv_amount_USDT :
    fungibleAssetAmount [{ asset_type := "USDT", amount := 7000000 }] "USDT" = 7 := by
  simp [fungibleAssetAmount]
  norm_num

theorem rateLimitedEnv_amount_USDC :
    fungibleAssetAmount [{ asset_type := "USDT", amount := 7000000 }] "USDC" = 0 := by
  have h1 : jsIncludes "USDT" "USDC" = false := by decide
  have h2 : jsIncludes "USDC" "USDT" = false := by decide
  simp [fungibleAssetAmount, h1, h2]

theorem rateLimitedEnv_coinFallback (tokenAddress : String) (c : Conn) :
    (coinFallback rateLimitedEnv tokenAddress c).1 = 5 := by
  simp only [coinFallback, getCoinBalance, rateLimitedEnv]
  norm_num

theorem getBalance_retries_after_two_rate_limits_witness :
    0 < (rpcUrlsOf exampleConfig).length ∧ isNativeToken "USDT" = false ∧
      (getBalance rateLimitedEnv exampleConfig "USDT" 0 World.initial.conn).1 = 7 ∧
      (getBalance rateLimitedEnv exampleConfig "USDT" 0 World.initial.conn).2.rpcSwitches = 2 ∧
      (getBalance rateLimitedEnv exampleConfig "USDT" 0 World.initial.conn).2.currentRpcIndex
        = 2 := by
  have hlen : 0 < (rpcUrlsOf exampleConfig).length := by decide
  have hnative : isNativeToken "USDT" = false := by decide
  have h := getBalance_retries_after_two_rate_limits rateLimitedEnv exampleConfig "USDT"
    World.initial.conn [{ asset_type := "USDT", amount := 7000000 }] hlen hnative rfl rfl rfl
  refine ⟨hlen, hnative, ?_, h.2.2.1, h.2.2.2.1⟩
  rw [h.1 (by rw [rateLimitedEnv_amount_USDT]; norm_num), rateLimitedEnv_amount_USDT]

/-- C9 (counterexample). The fungible-asset query is rate limited twice and
answers on the third attempt with a list that holds no USDC, that is with
the value 0; `getBalance` nevertheless returns 5, the result of the legacy
coin lookup that follows. -/
theorem getBalance_third_attempt_value_not_returned :
    isNativeToken "USDC" = false ∧
      rateLimitedEnv.getCurrentFungibleAssetBalances 0 = .error (some 429) ∧
      rateLimitedEnv.getCurrentFungibleAssetBalances 1 = .error (some 429) ∧
      rateLimitedEnv.getCurrentFungibleAssetBalances 2 =
        .ok [{ asset_type := "USDT", amount := 7000000 }] ∧
      fungibleAssetAmount [{ asset_type := "USDT", amount := 7000000 }] "USDC" = 0 ∧
      (getBalance rateLimitedEnv exampleConfig "USDC" 0 World.initial.conn).1 = 5 ∧
      (getBalance rateLimitedEnv exampleConfig "USDC" 0 World.initial.conn).1 ≠
        fungibleAssetAmount [{ asset_type := "USDT", amount := 7000000 }] "USDC" := by
  have hnative : isNativeToken "USDC" = false := by decide
  have h := getBalance_two_rate_limits rateLimitedEnv exampleConfig "USDC"
    World.initial.conn [{ asset_type := "USDT", amount := 7000000 }] hnative rfl rfl rfl
  have h5 : (getBalance rateLimitedEnv exampleConfig "USDC" 0 World.initial.conn).1 = 5 := by
    rw [h, rateLimitedEnv_amount_USDC, if_neg (lt_irrefl 0), rateLimitedEnv_coinFallback]
  refine ⟨hnative, rfl, rfl, rfl, rateLimitedEnv_amount_USDC, h5, ?_⟩
  rw [h5, rateLimitedEnv_amount_USDC]
  norm_num

/-- C10 (behaviour of the code at the failing inputs). A rate-limit error
(status 429) of the native-asset query, and one of the legacy coin lookup,
both at retry count 0, make `getBalance` return 0 after one and two upstream
calls: the endpoint rotator is not invoked (`rpcSwitches` and
`currentRpcIndex` are unchanged) and nothing is retried. -/
theorem getBalance_rate_limit_without_rotation :
    throttledEnv.getAccountAPTAmount 0 = .error (some 429) ∧
      getBalance throttledEnv exampleConfig "0x1::aptos_coin::AptosCoin" 0 World.initial.conn =
        (0, { currentRpcIndex := 0, tick := 1, rpcSwitches := 0 }) ∧
      throttledEnv.getAccountCoinAmount 1 "USDC::coin::T" = .error (some 429) ∧
      getBalance throttledEnv exampleConfig "USDC" 0 World.initial.conn =
        (0, { currentRpcIndex := 0, tick := 2, rpcSwitches := 0 }) := by
  refine ⟨rfl, ?_, rfl, ?_⟩
  · exact getBalance_native_error throttledEnv exampleConfig _ 0 World.initial.conn (some 429)
      (by decide) rfl
  · exact getBalance_coin_error throttledEnv exampleConfig "USDC" 0 World.initial.conn []
      (some 429) (by decide) rfl (by simp [fungibleAssetAmount]) (fun _ => rfl)

/-! ## C11: the retry bounds -/

theorem submitTransactionBudget_bound (env : Env) (cfg : Config) (payload : Payload) :
    ∀ (budget retryCount : Nat) (w : World), 3 ≤ retryCount + budget →
      ∃ n, n ≤ 3 - retryCount ∧
        (submitTransactionBudget env cfg payload budget retryCount w).2.submitted =
            w.submitted ++ List.replicate (n + 1) payload ∧
          (submitTransactionBudget env cfg payload budget retryCount w).2.conn.rpcSwitches =
            w.conn.rpcSwitches + n := by
  intro budget
  induction budget with
  | zero =>
    intro retryCount w hb
    refine ⟨0, Nat.zero_le _, ?_⟩
    have hr : ¬retryCount < 3 := by omega
    simp only [submitTransactionBudget, submitTransactionBody, hr, and_false, if_false]
    split <;> simp [World.logSubmit, Conn.next]
  | succ budget ih =>
    intro retryCount w hb
    simp only [submitTransactionBudget, submitTransactionBody]
    split
    · exact ⟨0, Nat.zero_le _, by simp [World.logSubmit, Conn.next]⟩
    · split
      · next hcond =>
        obtain ⟨n, hn, h1, h2⟩ := ih (retryCount + 1)
          ((w.logSubmit payload).withConn (switchToNextRpc cfg (w.logSubmit payload).conn))
          (by omega)
        refine ⟨n + 1, by have := hcond.2; omega, ?_, ?_⟩
        · rw [h1]
          simp [World.logSubmit, World.withConn, List.replicate_succ]
        · rw [h2]
          simp [World.logSubmit, World.withConn, switchToNextRpc, Conn.next]
          omega
      · exact ⟨0, Nat.zero_le _, by simp [World.logSubmit, Conn.next]⟩

theorem submitTransaction_all_rate_limited (env : Env) (cfg : Config) (payload : Payload)
    (w : World) (h : ∀ tick, env.submit tick payload = .error (some 429)) :
    (submitTransaction env cfg payload 0 w).1 = none ∧
      (submitTransaction env cfg payload 0 w).2.submitted =
        w.submitted ++ List.replicate 4 payload ∧
      (submitTransaction env cfg payload 0 w).2.conn.rpcSwitches = w.conn.rpcSwitches + 3 := by
  rw [submitTransaction_eq]
  simp only [submitTransactionBody, h, true_and, show (0 : Nat) < 3 from by omega, if_true]
  rw [submitTransaction_eq]
  simp only [submitTransactionBody, h, true_and, show (0 + 1 : Nat) < 3 from by omega, if_true]
  rw [submitTransaction_eq]
  simp only [submitTransactionBody, h, true_and, show (0 + 1 + 1 : Nat) < 3 from by omega,
    if_true]
  rw [submitTransaction_eq]
  simp only [submitTransactionBody, h, true_and, show ¬(0 + 1 + 1 + 1 : Nat) < 3 from by omega,
    and_false, if_false]
  simp [World.logSubmit, World.withConn, switchToNextRpc, Conn.next, List.replicate]

theorem submitTransaction_other_failure (env : Env) (cfg : Config) (payload : Payload)
    (retryCount : Nat) (w : World) (status : Option Nat) (hstatus : status ≠ some 429)
    (h : env.submit w.conn.tick payload = .error status) :
    submitTransaction env cfg payload retryCount w = (none, w.logSubmit payload) := by
  rw [submitTransaction_eq]
  simp only [submitTransactionBody, h, hstatus, false_and, if_false]

theorem getFungibleAssetBalance_conn (env : Env) (tokenAddress : String) (c : Conn) :
    (getFungibleAssetBalance env tokenAddress c).2 = c.next := by
  unfold getFungibleAssetBalance
  split <;> rfl

theorem getBalanceBudget_bound (env : Env) (cfg : Config) (tokenAddress : String) :
    ∀ (budget retryCount : Nat) (c : Conn), 3 ≤ retryCount + budget →
      (getBalanceBudget env cfg tokenAddress budget retryCount c).2.rpcSwitches ≤
          c.rpcSwitches + (3 - retryCount) ∧
        (getBalanceBudget env cfg tokenAddress budget retryCount c).2.tick ≤
          c.tick + (3 - retryCount) + 2 := by
  intro budget
  induction budget with
  | zero =>
    intro retryCount c hb
    have hr : ¬retryCount < 3 := by omega
    simp only [getBalanceBudget, getBalanceBody, hr, and_false, if_false]
    split
    · split <;> simp [Conn.next] <;> omega
    · have hfa := getFungibleAssetBalance_conn env tokenAddress c
      split
      · next heq =>
        rw [heq] at hfa
        simp only at hfa
        subst hfa
        split
        · simp [Conn.next]
          omega
        · rw [coinFallback_conn]
          simp [Conn.next]
      · next heq =>
        rw [heq] at hfa
        simp only at hfa
        subst hfa
        rw [coinFallback_conn]
        simp [Conn.next]
  | succ budget ih =>
    intro retryCount c hb
    simp only [getBalanceBudget, getBalanceBody]
    split
    · split <;> simp [Conn.next] <;> omega
    · have hfa := getFungibleAssetBalance_conn env tokenAddress c
      split
      · next heq =>
        rw [heq] at hfa
        simp only at hfa
        subst hfa
        split
        · simp [Conn.next]
          omega
        · rw [coinFallback_conn]
          simp [Conn.next]
      · next heq =>
        rw [heq] at hfa
        simp only at hfa
        subst hfa
        split
        · next hcond =>
          obtain ⟨h1, h2⟩ := ih (retryCount + 1) (switchToNextRpc cfg c.next) (by omega)
          have := hcond.2
          simp only [switchToNextRpc, Conn.next] at h1 h2 ⊢
          constructor <;> omega
        · rw [coinFallback_conn]
          simp [Conn.next]

theorem getBalance_all_rate_limited (env : Env) (cfg : Config) (tokenAddress : String)
    (c : Conn)
    (hapt : ∀ tick, env.getAccountAPTAmount tick = .error (some 429))
    (hfa : ∀ tick, env.getCurrentFungibleAssetBalances tick = .error (some 429))
    (hcoin : ∀ tick coinType, env.getAccountCoinAmount tick coinType = .error (some 429)) :
    (getBalance env cfg tokenAddress 0 c).1 = 0 ∧
      (isNativeToken tokenAddress = false →
        (getBalance env cfg tokenAddress 0 c).2.rpcSwitches = c.rpcSwitches + 3 ∧
          (getBalance env cfg tokenAddress 0 c).2.tick = c.tick + 5) := by
  cases hnative : isNativeToken tokenAddress with
  | true =>
    rw [getBalance_native_error env cfg tokenAddress 0 c (some 429) hnative (hapt _)]
    exact ⟨rfl, fun h => absurd h (by simp)⟩
  | false =>
    rw [getBalance_eq]
    simp only [getBalanceBody, hnative, Bool.false_eq_true, if_false, getFungibleAssetBalance,
      hfa, true_and, show (0 : Nat) < 3 from by omega, if_true]
    rw [getBalance_eq]
    simp only [getBalanceBody, hnative, Bool.false_eq_true, if_false, getFungibleAssetBalance,
      hfa, true_and, show (0 + 1 : Nat) < 3 from by omega, if_true]
    rw [getBalance_eq]
    simp only [getBalanceBody, hnative, Bool.false_eq_true, if_false, getFungibleAssetBalance,
      hfa, true_and, show (0 + 1 + 1 : Nat) < 3 from by omega, if_true]
    rw [getBalance_eq]
    simp only [getBalanceBody, hnative, Bool.false_eq_true, if_false, getFungibleAssetBalance,
      hfa, true_and, show ¬(0 + 1 + 1 + 1 : Nat) < 3 from by omega, and_false, coinFallback,
      getCoinBalance, hcoin]
    simp [switchToNextRpc, Conn.next]

/-- C11 (as amended). `submitTransaction` and `getBalance` always return:
`submitTransaction` makes at most 4 submission attempts (the first and at
most 3 retries, each retry after exactly one endpoint rotation) and
`getBalance` makes at most 3 rotations, hence at most 4 resolution attempts,
with at most 5 upstream calls.  When every upstream call is rate limited
the retries are exhausted after the fourth attempt and the result is `null`
for `submitTransaction` and `0` for `getBalance`; a submission failure that
is not a rate limit returns `null` after a single attempt, without rotation. -/
theorem retry_bounds (env : Env) (cfg : Config) (payload : Payload) (tokenAddress : String)
    (w : World) (c : Conn) :
    (∃ n, n ≤ 3 ∧
        (submitTransaction env cfg payload 0 w).2.submitted =
          w.submitted ++ List.replicate (n + 1) payload ∧
        (submitTransaction env cfg payload 0 w).2.conn.rpcSwitches = w.conn.rpcSwitches + n) ∧
      ((∀ tick, env.submit tick payload = .error (some 429)) →
        (submitTransaction env cfg payload 0 w).1 = none ∧
          (submitTransaction env cfg payload 0 w).2.submitted =
            w.submitted ++ List.replicate 4 payload) ∧
      (∀ status, status ≠ some 429 → env.submit w.conn.tick payload = .error status →
        submitTransaction env cfg payload 0 w = (none, w.logSubmit payload)) ∧
      (getBalance env cfg tokenAddress 0 c).2.rpcSwitches ≤ c.rpcSwitches + 3 ∧
      (getBalance env cfg tokenAddress 0 c).2.tick ≤ c.tick + 5 ∧
      ((∀ tick, env.getAccountAPTAmount tick = .error (some 429)) →
        (∀ tick, env.getCurrentFungibleAssetBalances tick = .error (some 429)) →
        (∀ tick coinType, env.getAccountCoinAmount tick coinType = .error (some 429)) →
        (getBalance env cfg tokenAddress 0 c).1 = 0 ∧
          (isNativeToken tokenAddress = false →
            (getBalance env cfg tokenAddress 0 c).2.rpcSwitches = c.rpcSwitches + 3)) := by
  refine ⟨?_, ?_, ?_, ?_, ?_, ?_⟩
  · obtain ⟨n, hn, h1, h2⟩ := submitTransactionBudget_bound env cfg payload (3 - 0) 0 w
      (by omega)
    exact ⟨n, hn, h1, h2⟩
  · intro h
    obtain ⟨h1, h2, -⟩ := submitTransaction_all_rate_limited env cfg payload w h
    exact ⟨h1, h2⟩
  · intro status hstatus h
    exact submitTransaction_other_failure env cfg payload 0 w status hstatus h
  · exact (getBalanceBudget_bound env cfg tokenAddress (3 - 0) 0 c (by omega)).1
  · exact (getBalanceBudget_bound env cfg tokenAddress (3 - 0) 0 c (by omega)).2
  · intro hapt hfa hcoin
    obtain ⟨h1, h2⟩ := getBalance_all_rate_limited env cfg tokenAddress c hapt hfa hcoin
    exact ⟨h1, fun hn => (h2 hn).1⟩

theorem retry_bounds_witness :
    (submitTransaction alwaysLimitedEnv exampleConfig examplePayload 0 World.initial).1 = none ∧
      (submitTransaction alwaysLimitedEnv exampleConfig examplePayload 0
        World.initial).2.submitted = List.replicate 4 examplePayload ∧
      (getBalance alwaysLimitedEnv exampleConfig "USDT" 0 World.initial.conn).1 = 0 := by
  have h := retry_bounds alwaysLimitedEnv exampleConfig examplePayload "USDT" World.initial
    World.initial.conn
  obtain ⟨h1, h2⟩ := h.2.1 (fun _ => rfl)
  exact ⟨h1, h2, (h.2.2.2.2.2 (fun _ => rfl) (fun _ => rfl) (fun _ _ => rfl)).1⟩

/-- C11 (counterexample). When every call is rate limited, `submitTransaction`
submits the payload 4 times, not at most 3, and `getBalance` rotates the
endpoint 3 times, that is it makes 4 resolution attempts (4 fungible-asset
queries and the final coin query: 5 upstream calls). -/
theorem submitTransaction_four_attempts :
    (submitTransaction alwaysLimitedEnv exampleConfig examplePayload 0
        World.initial).2.submitted.length = 4 ∧
      ¬(submitTransaction alwaysLimitedEnv exampleConfig examplePayload 0
        World.initial).2.submitted.length ≤ 3 ∧
      (getBalance alwaysLimitedEnv exampleConfig "USDT" 0 World.initial.conn).2.rpcSwitches
        = 3 ∧
      (getBalance alwaysLimitedEnv exampleConfig "USDT" 0 World.initial.conn).2.tick = 5 := by
  obtain ⟨-, h2, -⟩ := submitTransaction_all_rate_limited alwaysLimitedEnv exampleConfig
    examplePayload World.initial (fun _ => rfl)
  obtain ⟨-, g⟩ := getBalance_all_rate_limited alwaysLimitedEnv exampleConfig "USDT"
    World.initial.conn (fun _ => rfl) (fun _ => rfl) (fun _ _ => rfl)
  have hlen : (submitTransaction alwaysLimitedEnv exampleConfig examplePayload 0
      World.initial).2.submitted.length = 4 := by
    rw [h2]
    rfl
  refine ⟨hlen, by rw [hlen]; decide, (g (by decide)).1, (g (by decide)).2⟩


/-! ## C12 and C13: the endpoint rotator -/

theorem switchToNextRpc_iterate (cfg : Config) :
    ∀ (n : Nat) (c : Conn),
      ((switchToNextRpc cfg)^[n] c).currentRpcIndex =
          (if n = 0 then c.currentRpcIndex
           else (c.currentRpcIndex + n) % (rpcUrlsOf cfg).length) ∧
        ((switchToNextRpc cfg)^[n] c).rpcSwitches = c.rpcSwitches + n := by
  intro n
  induction n with
  | zero => intro c; exact ⟨rfl, rfl⟩
  | succ n ih =>
    intro c
    rw [Function.iterate_succ_apply']
    obtain ⟨h1, h2⟩ := ih c
    constructor
    · simp only [switchToNextRpc, h1, Nat.succ_ne_zero, if_false]
      split
      · next h0 => subst h0; rfl
      · rw [Nat.mod_add_mod]
        rfl
    · simp only [switchToNextRpc, h2]
      rfl

theorem getBalanceBudget_index (env : Env) (cfg : Config) (tokenAddress : String)
    (hlen : 0 < (rpcUrlsOf cfg).length) :
    ∀ (budget retryCount : Nat) (c : Conn), c.currentRpcIndex < (rpcUrlsOf cfg).length →
      (getBalanceBudget env cfg tokenAddress budget retryCount c).2.currentRpcIndex <
        (rpcUrlsOf cfg).length := by
  intro budget
  induction budget with
  | zero =>
    intro retryCount c hc
    simp only [getBalanceBudget, getBalanceBody]
    split
    · split <;> exact hc
    · have hfa := getFungibleAssetBalance_conn env tokenAddress c
      split
      · next heq =>
        rw [heq] at hfa
        simp only at hfa
        subst hfa
        split
        · exact hc
        · rw [coinFallback_conn]
          exact hc
      · next heq =>
        rw [heq] at hfa
        simp only at hfa
        subst hfa
        split
        · exact Nat.mod_lt _ hlen
        · rw [coinFallback_conn]
          exact hc
  | succ budget ih =>
    intro retryCount c hc
    simp only [getBalanceBudget, getBalanceBody]
    split
    · split <;> exact hc
    · have hfa := getFungibleAssetBalance_conn env tokenAddress c
      split
      · next heq =>
        rw [heq] at hfa
        simp only at hfa
        subst hfa
        split
        · exact hc
        · rw [coinFallback_conn]
          exact hc
      · next heq =>
        rw [heq] at hfa
        simp only at hfa
        subst hfa
        split
        · exact ih _ _ (Nat.mod_lt _ hlen)
        · rw [coinFallback_conn]
          exact hc

theorem submitTransactionBudget_index (env : Env) (cfg : Config) (payload : Payload)
    (hlen : 0 < (rpcUrlsOf cfg).length) :
    ∀ (budget retryCount : Nat) (w : World),
      w.conn.currentRpcIndex < (rpcUrlsOf cfg).length →
      (submitTransactionBudget env cfg payload budget retryCount w).2.conn.currentRpcIndex <
        (rpcUrlsOf cfg).length := by
  intro budget
  induction budget with
  | zero =>
    intro retryCount w hw
    simp only [submitTransactionBudget, submitTransactionBody]
    split
    · exact hw
    · split
      · exact Nat.mod_lt _ hlen
      · exact hw
  | succ budget ih =>
    intro retryCount w hw
    simp only [submitTransactionBudget, submitTransactionBody]
    split
    · exact hw
    · split
      · exact ih _ _ (Nat.mod_lt _ hlen)
      · exact hw

/-- C12. For a non-empty endpoint list the endpoint index starts at 0, every
call of `switchToNextRpc` sets it to `(index + 1) mod len`, after `n` calls
it is `n mod len`, and it stays below `len` after any number of calls, also
through the calls that `getBalance` and `submitTransaction` make. -/
theorem rpc_index_in_range (env : Env) (cfg : Config) (n : Nat) (c : Conn)
    (tokenAddress : String) (payload : Payload) (w : World)
    (hlen : 0 < (rpcUrlsOf cfg).length) :
    World.initial.conn.currentRpcIndex = 0 ∧
      (switchToNextRpc cfg c).currentRpcIndex =
        (c.currentRpcIndex + 1) % (rpcUrlsOf cfg).length ∧
      ((switchToNextRpc cfg)^[n] World.initial.conn).currentRpcIndex =
        n % (rpcUrlsOf cfg).length ∧
      ((switchToNextRpc cfg)^[n] World.initial.conn).currentRpcIndex <
        (rpcUrlsOf cfg).length ∧
      (c.currentRpcIndex < (rpcUrlsOf cfg).length →
        ((switchToNextRpc cfg)^[n] c).currentRpcIndex < (rpcUrlsOf cfg).length ∧
          (getBalance env cfg tokenAddress 0 c).2.currentRpcIndex < (rpcUrlsOf cfg).length) ∧
      (w.conn.currentRpcIndex < (rpcUrlsOf cfg).length →
        (submitTransaction env cfg payload 0 w).2.conn.currentRpcIndex <
          (rpcUrlsOf cfg).length) := by
  have hinit : ((switchToNextRpc cfg)^[n] World.initial.conn).currentRpcIndex =
      n % (rpcUrlsOf cfg).length := by
    rw [(switchToNextRpc_iterate cfg n World.initial.conn).1]
    split
    · next h0 =>
      subst h0
      exact (Nat.zero_mod _).symm
    · simp [World.initial]
  refine ⟨rfl, rfl, hinit, ?_, ?_, ?_⟩
  · rw [hinit]
    exact Nat.mod_lt _ hlen
  · intro hc
    constructor
    · rw [(switchToNextRpc_iterate cfg n c).1]
      split
      · exact hc
      · exact Nat.mod_lt _ hlen
    · exact getBalanceBudget_index env cfg tokenAddress hlen _ _ c hc
  · intro hw
    exact submitTransactionBudget_index env cfg payload hlen _ _ w hw

theorem rpc_index_in_range_witness :
    0 < (rpcUrlsOf exampleConfig).length ∧
      ((switchToNextRpc exampleConfig)^[7] World.initial.conn).currentRpcIndex = 1 ∧
      ((switchToNextRpc exampleConfig)^[7] World.initial.conn).currentRpcIndex <
        (rpcUrlsOf exampleConfig).length := by
  have hlen : 0 < (rpcUrlsOf exampleConfig).length := by decide
  have h := rpc_index_in_range lossEnv exampleConfig 7 World.initial.conn "USDT"
    examplePayload World.initial hlen
  exact ⟨hlen, h.2.2.1, h.2.2.2.1⟩

theorem switchToNextRpc_twice_index (cfg : Config) (c : Conn) :
    (switchToNextRpc cfg (switchToNextRpc cfg c)).currentRpcIndex =
      (c.currentRpcIndex + 2) % (rpcUrlsOf cfg).length := by
  simp only [switchToNextRpc]
  rw [Nat.mod_add_mod]

/-- C13 (as amended). `switchToNextRpc` is a rotation, not an idempotent
operation: for a non-empty endpoint list two calls in a row leave the index
at `(index + 2) mod len`, which is in range, and this is the index left by
a single call exactly when the list has one endpoint. -/
theorem switchToNextRpc_twice (cfg : Config) (c : Conn)
    (hlen : 0 < (rpcUrlsOf cfg).length) :
    (switchToNextRpc cfg (switchToNextRpc cfg c)).currentRpcIndex =
        (c.currentRpcIndex + 2) % (rpcUrlsOf cfg).length ∧
      (switchToNextRpc cfg (switchToNextRpc cfg c)).currentRpcIndex <
        (rpcUrlsOf cfg).length ∧
      ((switchToNextRpc cfg (switchToNextRpc cfg c)).currentRpcIndex =
          (switchToNextRpc cfg c).currentRpcIndex ↔
        (rpcUrlsOf cfg).length = 1) := by
  refine ⟨switchToNextRpc_twice_index cfg c, Nat.mod_lt _ hlen, ?_⟩
  rw [switchToNextRpc_twice_index]
  simp only [switchToNextRpc]
  constructor
  · intro h
    have hmod : c.currentRpcIndex + 1 ≡ c.currentRpcIndex + 2 [MOD (rpcUrlsOf cfg).length] :=
      h.symm
    have hdvd := (Nat.modEq_iff_dvd' (by omega)).1 hmod
    have h1 : c.currentRpcIndex + 2 - (c.currentRpcIndex + 1) = 1 := by omega
    rw [h1] at hdvd
    exact Nat.dvd_one.mp hdvd
  · intro h
    rw [h, Nat.mod_one, Nat.mod_one]

theorem switchToNextRpc_twice_witness :
    0 < (rpcUrlsOf singleEndpointConfig).length ∧
      (switchToNextRpc singleEndpointConfig
          (switchToNextRpc singleEndpointConfig World.initial.conn)).currentRpcIndex =
        (switchToNextRpc singleEndpointConfig World.initial.conn).currentRpcIndex := by
  have hlen : 0 < (rpcUrlsOf singleEndpointConfig).length := by decide
  exact ⟨hlen, (switchToNextRpc_twice singleEndpointConfig World.initial.conn hlen).2.2.mpr
    (by decide)⟩

/-- C13 (counterexample). With three endpoints and the index at 0, one call
leaves the index at 1 and the endpoint `https://rpc1`, two calls leave the
index at 2 and the endpoint `https://rpc2`. -/
theorem switchToNextRpc_not_idempotent :
    (switchToNextRpc exampleConfig World.initial.conn).currentRpcIndex = 1 ∧
      (switchToNextRpc exampleConfig
        (switchToNextRpc exampleConfig World.initial.conn)).currentRpcIndex = 2 ∧
      currentRpcUrl exampleConfig (switchToNextRpc exampleConfig World.initial.conn) =
        some "https://rpc1" ∧
      currentRpcUrl exampleConfig
          (switchToNextRpc exampleConfig (switchToNextRpc exampleConfig World.initial.conn)) =
        some "https://rpc2" ∧
      (switchToNextRpc exampleConfig
          (switchToNextRpc exampleConfig World.initial.conn)).currentRpcIndex ≠
        (switchToNextRpc exampleConfig World.initial.conn).currentRpcIndex := by
  decide

/-! ## C14: the payload builder selected by the pool type -/

theorem performSwap_supported (env : Env) (cfg : Config) (params : SwapParams)
    (estimate : SwapEstimate) (w : World) (payload : Payload)
    (h : selectPayload params estimate = some payload) :
    (performSwap env cfg params estimate w).2.built = w.built ++ [payload] ∧
      ∃ n, (performSwap env cfg params estimate w).2.submitted =
        w.submitted ++ List.replicate (n + 1) payload := by
  unfold performSwap
  simp only [h]
  obtain ⟨n, h1, -, h3, -⟩ :=
    submitTransactionBudget_logs env cfg payload (3 - 0) 0 (w.logBuild payload)
  exact ⟨h3, n, h1⟩

/-- C14. `performSwap` runs the one payload builder that `poolType`
selects: `AMM` the AMM builder, `CLMM` the CLMM builder, `STABLE` the stable
builder; exactly that payload is built, once, and handed to the submitter.
For every other `poolType` no payload is built, nothing is submitted and the
result is `null`. -/
theorem performSwap_dispatch (env : Env) (cfg : Config) (params : SwapParams)
    (estimate : SwapEstimate) (w : World) :
    (params.poolInfo.poolType = "AMM" →
        (performSwap env cfg params estimate w).2.built =
            w.built ++ [createAMMSwapPayload params estimate] ∧
          ∃ n, (performSwap env cfg params estimate w).2.submitted =
            w.submitted ++ List.replicate (n + 1) (createAMMSwapPayload params estimate)) ∧
      (params.poolInfo.poolType = "CLMM" →
        (performSwap env cfg params estimate w).2.built =
            w.built ++ [createCLMMSwapPayload params estimate] ∧
          ∃ n, (performSwap env cfg params estimate w).2.submitted =
            w.submitted ++ List.replicate (n + 1) (createCLMMSwapPayload params estimate)) ∧
      (params.poolInfo.poolType = "STABLE" →
        (performSwap env cfg params estimate w).2.built =
            w.built ++ [createStableSwapPayload params estimate] ∧
          ∃ n, (performSwap env cfg params estimate w).2.submitted =
            w.submitted ++ List.replicate (n + 1) (createStableSwapPayload params estimate)) ∧
      (params.poolInfo.poolType ≠ "AMM" → params.poolInfo.poolType ≠ "CLMM" →
        params.poolInfo.poolType ≠ "STABLE" →
        performSwap env cfg params estimate w = (none, w)) ∧
      createAMMSwapPayload params estimate =
        .amm params.poolInfo.poolId params.a2b true
          (if params.a2b then params.amountIn else estimate.minAmountOut)
          (if params.a2b then estimate.minAmountOut else params.amountIn) ∧
      createCLMMSwapPayload params estimate =
        .clmm params.poolInfo.poolId params.amountIn estimate.minAmountOut params.a2b true 0 ∧
      createStableSwapPayload params estimate =
        .stable params.poolInfo.poolId (if params.a2b then 0 else 1)
          (if params.a2b then 1 else 0) params.amountIn estimate.minAmountOut := by
  refine ⟨?_, ?_, ?_, ?_, rfl, rfl, rfl⟩
  · intro h
    exact performSwap_supported env cfg params estimate w _ (by simp [selectPayload, h])
  · intro h
    exact performSwap_supported env cfg params estimate w _ (by simp [selectPayload, h])
  · intro h
    exact performSwap_supported env cfg params estimate w _ (by simp [selectPayload, h])
  · intro h1 h2 h3
    simp [performSwap, selectPayload, h1, h2, h3]

theorem performSwap_dispatch_witness :
    exampleParams.poolInfo.poolType = "AMM" ∧
      (performSwap lossEnv exampleConfig exampleParams exampleEstimate World.initial).2.built =
        [.amm "0xpool" true true 2000000 1970100] ∧
      performSwap lossEnv exampleConfig unsupportedParams exampleEstimate World.initial =
        (none, World.initial) := by
  have h := performSwap_dispatch lossEnv exampleConfig exampleParams exampleEstimate
    World.initial
  have h2 := performSwap_dispatch lossEnv exampleConfig unsupportedParams exampleEstimate
    World.initial
  exact ⟨rfl, (h.1 rfl).1, h2.2.2.2.1 (by decide) (by decide) (by decide)⟩

/-! ## C16: a quote that reports an output amount of zero -/

/-- C16 (behaviour of the code at the failing input). A quote without an
error object that reports `amountOut: 0` and no `estAmount` makes
`estimateSwap` return `null`, because `result.amountOut || result.estAmount`
turns the zero into `undefined`; a quote that reports `amountOut: 0` next to
`estAmount: 5` yields an estimate whose `amountOut` is 5. -/
theorem estimateSwap_zero_amountOut_dropped :
    zeroQuoteEnv.getEstSwapAmount 0
        { poolId := "0xpool", a2b := true, field := "input", amount := 2000000, pair := [0, 1] } =
      .ok (some { error := none, amountOut := some 0, estAmount := none, amountIn := none,
                  amount := none, priceImpact := none, fee := none }) ∧
      (estimateSwap zeroQuoteEnv exampleConfig exampleParams World.initial).1 = none ∧
      jsOr (some 0) none = none ∧
      jsOr (some 0) (some 5) = some 5 := by
  refine ⟨rfl, ?_, ?_, ?_⟩
  · simp [estimateSwap, zeroQuoteEnv, jsOr]
  · simp [jsOr]
  · simp [jsOr]

/-! ## C17: the amount of the reverse swap in debug mode -/

theorem runDebugMode_reverse_quotes (env : Env) (bot : TappSwapBot) (pool : Pool)
    (w0 w2 w3 : World) (b : ℚ)
    (hpool : bot.currentPool = some pool)
    (hforward : (executeSwapWithCustomAmount env bot true bot.config.testAmount
        (w0.withConn (printBalances env bot pool w0.conn))).1 = true)
    (hw2 : (executeSwapWithCustomAmount env bot true bot.config.testAmount
        (w0.withConn (printBalances env bot pool w0.conn))).2 = w2)
    (hw3 : (if bot.config.logDetailedInfo then w2.withConn (printBalances env bot pool w2.conn)
        else w2) = w3)
    (hb : (getBalance env bot.config pool.tokenB 0 w3.conn).1 = b) :
    (runDebugMode env bot initialStatistics w0).2.quotes = (executeSwap env bot false w3).2.quotes ∧
      w3.quotes = w2.quotes ∧
      ((0 < b ∧ 1000000 ≤ min (b * 10 ^ 6) bot.config.initialAmount) →
        (executeSwap env bot false w3).2.quotes =
          w3.quotes ++
            [{ poolId := pool.poolId, a2b := false, field := "input",
               amount := ⌊min (b * 10 ^ 6) bot.config.initialAmount⌋, pair := [0, 1] }]) ∧
      ((b ≤ 0 ∨ min (b * 10 ^ 6) bot.config.initialAmount < 1000000) →
        (executeSwap env bot false w3).2.quotes = w3.quotes) := by
  have hlogs := executeSwap_logs env bot pool false w3 b hpool
    (by simpa using hb)
  refine ⟨?_, ?_, fun h => (hlogs.2 h).1, fun h => (hlogs.1 h).2.1⟩
  · unfold runDebugMode
    simp only [hpool, hforward, if_true, hw2, hw3]
    split <;> rfl
  · rw [← hw3]
    split <;> rfl

/-- C17 (as amended). In debug mode, after a successful forward swap, the
reverse swap is sized by `executeSwap`: for a token-B balance `b > 0` its
`amountIn` is `floor(min(b * 10^6, initialAmount))`, and it is quoted when
that amount is at least 1,000,000.  It is the whole balance
`floor(b * 10^6)` exactly when the balance does not exceed the configured
maximum `initialAmount`. -/
theorem runDebugMode_reverse_amount (env : Env) (bot : TappSwapBot) (pool : Pool)
    (w0 w2 w3 : World) (b : ℚ)
    (hpool : bot.currentPool = some pool)
    (hforward : (executeSwapWithCustomAmount env bot true bot.config.testAmount
        (w0.withConn (printBalances env bot pool w0.conn))).1 = true)
    (hw2 : (executeSwapWithCustomAmount env bot true bot.config.testAmount
        (w0.withConn (printBalances env bot pool w0.conn))).2 = w2)
    (hw3 : (if bot.config.logDetailedInfo then w2.withConn (printBalances env bot pool w2.conn)
        else w2) = w3)
    (hb : (getBalance env bot.config pool.tokenB 0 w3.conn).1 = b)
    (hpos : 0 < b) :
    (1000000 ≤ min (b * 10 ^ 6) bot.config.initialAmount →
        (runDebugMode env bot initialStatistics w0).2.quotes =
          w2.quotes ++
            [{ poolId := pool.poolId, a2b := false, field := "input",
               amount := ⌊min (b * 10 ^ 6) bot.config.initialAmount⌋, pair := [0, 1] }]) ∧
      (min (b * 10 ^ 6) bot.config.initialAmount < 1000000 →
        (runDebugMode env bot initialStatistics w0).2.quotes = w2.quotes) ∧
      (b * 10 ^ 6 ≤ bot.config.initialAmount →
        ⌊min (b * 10 ^ 6) bot.config.initialAmount⌋ = ⌊b * 10 ^ 6⌋) ∧
      (bot.config.initialAmount < b * 10 ^ 6 →
        ⌊min (b * 10 ^ 6) bot.config.initialAmount⌋ = ⌊bot.config.initialAmount⌋) := by
  obtain ⟨h1, h2, h3, h4⟩ :=
    runDebugMode_reverse_quotes env bot pool w0 w2 w3 b hpool hforward hw2 hw3 hb
  refine ⟨?_, ?_, ?_, ?_⟩
  · intro hge
    rw [h1, h3 ⟨hpos, hge⟩, h2]
  · intro hlt
    rw [h1, h4 (Or.inr hlt), h2]
  · intro hle
    rw [min_eq_left hle]
  · intro hlt
    rw [min_eq_right (le_of_lt hlt)]

theorem holdingEnv_getBalance (amountA amountB : Nat) (hA : amountA ≠ 0) (hB : amountB ≠ 0)
    (a2b : Bool) (c : Conn) :
    getBalance (holdingEnv amountA amountB) exampleConfig (if a2b then "USDT" else "USDC") 0 c =
      (((if a2b then amountA else amountB : Nat) : ℚ) / 10 ^ 6, c.next) := by
  have hposA : (0 : ℚ) < (amountA : ℚ) / 10 ^ 6 := by
    have : (0 : ℚ) < amountA := by exact_mod_cast Nat.pos_of_ne_zero hA
    positivity
  have hposB : (0 : ℚ) < (amountB : ℚ) / 10 ^ 6 := by
    have : (0 : ℚ) < amountB := by exact_mod_cast Nat.pos_of_ne_zero hB
    positivity
  rw [getBalance_eq]
  cases a2b
  · simp [getBalanceBody, isNativeToken, getFungibleAssetBalance, fungibleAssetAmount,
      holdingEnv, lossEnv, hB, hposB]
  · simp [getBalanceBody, isNativeToken, getFungibleAssetBalance, fungibleAssetAmount,
      holdingEnv, lossEnv, hA, hposA]

theorem holdingEnv_estimateSwap (amountA amountB : Nat) (params : SwapParams) (w : World) :
    (estimateSwap (holdingEnv amountA amountB) exampleConfig params w).1 =
      some { amountOut := 9950000, amountIn := params.amountIn, priceImpact := 0, fee := 0,
             minAmountOut := ⌊(9950000 : ℚ) * (1 - exampleConfig.slippageTolerance / 100)⌋ } := by
  simp [estimateSwap, holdingEnv, lossEnv, jsOr, jsOrElse]

theorem holdingEnv_performSwap (amountA amountB : Nat) (params : SwapParams)
    (estimate : SwapEstimate) (w : World) (h : params.poolInfo.poolType = "AMM") :
    (performSwap (holdingEnv amountA amountB) exampleConfig params estimate w).1 =
      some "0xhash" := by
  simp only [performSwap, selectPayload, h, if_true]
  rw [submitTransaction_eq]
  rfl

theorem holdingEnv_executeSwapWithCustomAmount (amountA amountB : Nat) (hA : amountA ≠ 0)
    (hB : amountB ≠ 0) (a2b : Bool) (customAmount : ℚ) (w : World)
    (h1 : ¬(customAmount < 1000000))
    (h2 : ¬(((if a2b then amountA else amountB : Nat) : ℚ) / 10 ^ 6 * 10 ^ 6 < customAmount)) :
    (executeSwapWithCustomAmount (holdingEnv amountA amountB) lossBot a2b customAmount w).1 =
      true := by
  have hp : lossBot.currentPool = some examplePool := rfl
  have hc : lossBot.config = exampleConfig := rfl
  have ha : examplePool.tokenA = "USDT" := rfl
  have hb : examplePool.tokenB = "USDC" := rfl
  unfold executeSwapWithCustomAmount
  simp only [hp, hc, ha, hb, holdingEnv_getBalance amountA amountB hA hB, if_neg h1, if_neg h2,
    holdingEnv_estimateSwap]
  rw [holdingEnv_performSwap _ _ _ _ _ rfl]

theorem holdingEnv_getBalance_USDC (amountA amountB : Nat) (hA : amountA ≠ 0) (hB : amountB ≠ 0)
    (c : Conn) :
    (getBalance (holdingEnv amountA amountB) exampleConfig "USDC" 0 c).1 =
      (amountB : ℚ) / 10 ^ 6 := by
  have h := holdingEnv_getBalance amountA amountB hA hB false c
  simp only [Bool.false_eq_true, if_false] at h
  rw [h]

theorem runDebugMode_reverse_amount_witness :
    lossBot.currentPool = some examplePool ∧
      (runDebugMode (holdingEnv 7000000 7000000) lossBot initialStatistics
          World.initial).2.quotes.getLast? =
        some { poolId := "0xpool", a2b := false, field := "input", amount := 7000000,
               pair := [0, 1] } := by
  have hforward := holdingEnv_executeSwapWithCustomAmount 7000000 7000000 (by decide)
    (by decide) true lossBot.config.testAmount
    (World.initial.withConn
      (printBalances (holdingEnv 7000000 7000000) lossBot examplePool World.initial.conn))
    (by norm_num [lossBot, exampleConfig]) (by norm_num [lossBot, exampleConfig])
  have h := runDebugMode_reverse_amount (holdingEnv 7000000 7000000) lossBot examplePool
    World.initial _ _ 7 rfl hforward rfl rfl
    (by
      rw [show lossBot.config = exampleConfig from rfl,
        show examplePool.tokenB = "USDC" from rfl,
        holdingEnv_getBalance_USDC 7000000 7000000 (by decide) (by decide)]
      norm_num)
    (by norm_num)
  refine ⟨rfl, ?_⟩
  rw [h.1 (by norm_num [lossBot, exampleConfig]), List.getLast?_concat]
  norm_num [lossBot, exampleConfig, examplePool]

/-- C17 (counterexample). With 94 USDC in the account after the forward swap
and `initialAmount` 10,000,000, the reverse swap of debug mode is quoted for
10,000,000 atomic units, not for the whole balance of 94,000,000. -/
theorem runDebugMode_reverse_swap_capped :
    (runDebugMode sixEnv lossBot initialStatistics World.initial).2.quotes.getLast? =
        some { poolId := "0xpool", a2b := false, field := "input", amount := 10000000,
               pair := [0, 1] } ∧
      ⌊(94 : ℚ) * 10 ^ 6⌋ = 94000000 ∧
      (10000000 : ℤ) ≠ ⌊(94 : ℚ) * 10 ^ 6⌋ := by
  have hforward := sixEnv_executeSwapWithCustomAmount true lossBot.config.testAmount
    (World.initial.withConn (printBalances sixEnv lossBot examplePool World.initial.conn))
    (by norm_num [lossBot, exampleConfig]) (by norm_num [lossBot, exampleConfig])
  obtain ⟨h1, -, h3, -⟩ := runDebugMode_reverse_quotes sixEnv lossBot examplePool World.initial
    _ _ 94 rfl hforward rfl rfl
    (by
      rw [show lossBot.config = exampleConfig from rfl,
        show examplePool.tokenB = "USDC" from rfl, sixEnv_getBalance "USDC" (Or.inr rfl)])
  have hfloor : ⌊(94 : ℚ) * 10 ^ 6⌋ = 94000000 := by norm_num
  refine ⟨?_, hfloor, by rw [hfloor]; decide⟩
  rw [h1, h3 ⟨by norm_num, by norm_num [lossBot, exampleConfig]⟩, List.getLast?_concat]
  norm_num [lossBot, exampleConfig, examplePool]

/-! ## C15: the pool chosen from the listing -/

theorem matchedPoolRecord_tokens (cfg : PoolConfig) (target : ListedPool)
    (hmatch : matchesConfiguredPair cfg target = true)
    (hA : jsTruthy (configuredTokenA cfg) = true)
    (hB : jsTruthy (configuredTokenB cfg) = true) :
    ((matchedPoolRecord cfg target).tokenA = configuredTokenA cfg ∧
        (matchedPoolRecord cfg target).tokenB = configuredTokenB cfg) ∨
      ((matchedPoolRecord cfg target).tokenA = configuredTokenB cfg ∧
        (matchedPoolRecord cfg target).tokenB = configuredTokenA cfg) := by
  have htruthy : ∀ (x y : Option String), jsTruthy x = true → jsOrString x y = x := by
    intro x y hx
    cases x with
    | none => simp [jsTruthy] at hx
    | some s =>
      have hs : s ≠ "" := by simpa [jsTruthy] using hx
      simp [jsOrString, hs]
  unfold matchesConfiguredPair at hmatch
  unfold matchedPoolRecord
  dsimp only at hmatch ⊢
  split at hmatch
  · next t0 t1 rest heq =>
    simp only [heq]
    simp only [Bool.or_eq_true, Bool.and_eq_true, beq_iff_eq] at hmatch
    exact hmatch
  · next hshape =>
    simp only [Bool.or_eq_true, Bool.and_eq_true, beq_iff_eq] at hmatch
    dsimp only
    rcases hmatch with ⟨h1, h2⟩ | ⟨h1, h2⟩
    · left
      exact ⟨by rw [htruthy _ _ (h1 ▸ hA), h1], by rw [htruthy _ _ (h2 ▸ hB), h2]⟩
    · right
      exact ⟨by rw [htruthy _ _ (h1 ▸ hB), h1], by rw [htruthy _ _ (h2 ▸ hA), h2]⟩

/-- The pool chosen by `findBestPool`. Without a pinned `poolId` and with a
non-empty listing, `findBestPool` returns the object built from the first
listed pool that the predicate of `pools.find` accepts, and the two tokens of
that object are the two configured tokens (the configured tokens being
non-empty strings); when the predicate accepts no listed pool it returns the
object built from the first listed pool.  In both cases the result is not
`null`. -/
theorem findBestPool_first_match_else_first (penv : PoolEnv) (cfg : PoolConfig)
    (response : PoolsResponse) (pools : List ListedPool)
    (hpin : jsTruthy cfg.poolId = false)
    (hresp : penv.getPools cfg.poolType = .ok response)
    (hpools : poolsOfResponse response = some pools)
    (hne : pools ≠ []) :
    (∀ target, pools.find? (matchesConfiguredPair cfg) = some target →
        findBestPool penv cfg = some (matchedPoolRecord cfg target) ∧
          matchesConfiguredPair cfg target = true ∧
          (∃ before after, pools = before ++ target :: after ∧
            ∀ p ∈ before, matchesConfiguredPair cfg p = false) ∧
          (jsTruthy (configuredTokenA cfg) = true → jsTruthy (configuredTokenB cfg) = true →
            ((matchedPoolRecord cfg target).tokenA = configuredTokenA cfg ∧
                (matchedPoolRecord cfg target).tokenB = configuredTokenB cfg) ∨
              ((matchedPoolRecord cfg target).tokenA = configuredTokenB cfg ∧
                (matchedPoolRecord cfg target).tokenB = configuredTokenA cfg))) ∧
      (pools.find? (matchesConfiguredPair cfg) = none →
        ∃ first, pools.head? = some first ∧
          findBestPool penv cfg = some (fallbackPoolRecord cfg first)) ∧
      findBestPool penv cfg ≠ none := by
  obtain ⟨first, rest, hcons⟩ : ∃ first rest, pools = first :: rest := by
    cases pools with
    | nil => exact absurd rfl hne
    | cons first rest => exact ⟨first, rest, rfl⟩
  subst hcons
  refine ⟨?_, ?_, ?_⟩
  · intro target htarget
    have hp := List.find?_eq_some.mp htarget
    refine ⟨?_, hp.1, ?_, ?_⟩
    · unfold findBestPool
      simp only [hpin, Bool.false_eq_true, if_false, hresp, hpools, htarget]
    · obtain ⟨before, after, heq, hbefore⟩ := hp.2
      exact ⟨before, after, heq, fun p hp' => by simpa using hbefore p hp'⟩
    · intro hA hB
      exact matchedPoolRecord_tokens cfg target hp.1 hA hB
  · intro hnone
    refine ⟨first, rfl, ?_⟩
    unfold findBestPool
    simp only [hpin, Bool.false_eq_true, if_false, hresp, hpools, hnone]
  · unfold findBestPool
    simp only [hpin, Bool.false_eq_true, if_false, hresp, hpools]
    split <;> simp

theorem findBestPool_first_match_else_first_witness :
    jsTruthy examplePoolConfig.poolId = false ∧
      [aptPool, stablePool].find? (matchesConfiguredPair examplePoolConfig) = some stablePool ∧
      findBestPool examplePoolEnv examplePoolConfig =
        some { poolId := some "0xstable", poolType := some "STABLE", tokenA := some "USDC",
               tokenB := some "USDT", tvl := 500 } := by
  have hfound : [aptPool, stablePool].find? (matchesConfiguredPair examplePoolConfig) =
      some stablePool := by decide
  have h := (findBestPool_first_match_else_first examplePoolEnv examplePoolConfig
    (.wrapped (some [aptPool, stablePool]) none) [aptPool, stablePool] rfl rfl rfl
    (by simp)).1 stablePool hfound
  refine ⟨rfl, hfound, ?_⟩
  rw [h.1]
  simp [matchedPoolRecord, stablePool, jsOrString, jsOrElse]

/-- C15 (behaviour of the code at the failing input). The predicate of
`pools.find` never reads the fields `token_a` and `token_b`, which the
extraction of the returned tokens reads as `tokenA || token_a` and
`tokenB || token_b`.  With the pair `0xa` / `0xb` configured and the listing
`[bareAptPool, oldStructurePool]`, whose second pool carries exactly that pair
in `token_a` / `token_b`, the predicate rejects both pools and `findBestPool`
returns the object of the first pool, with tokens `0x1` and `USDT`, although
the object it builds from the second pool has the two configured tokens. -/
theorem findBestPool_old_structure_pair_not_found :
    (∀ (cfg : PoolConfig) (pool : ListedPool) (a b : Option String),
        matchesConfiguredPair cfg { pool with token_a := a, token_b := b } =
          matchesConfiguredPair cfg pool) ∧
      jsTruthy pairPoolConfig.poolId = false ∧
      oldStructurePoolEnv.getPools pairPoolConfig.poolType =
        .ok (.array [bareAptPool, oldStructurePool]) ∧
      (matchedPoolRecord pairPoolConfig oldStructurePool).tokenA =
        configuredTokenA pairPoolConfig ∧
      (matchedPoolRecord pairPoolConfig oldStructurePool).tokenB =
        configuredTokenB pairPoolConfig ∧
      matchesConfiguredPair pairPoolConfig oldStructurePool = false ∧
      [bareAptPool, oldStructurePool].find? (matchesConfiguredPair pairPoolConfig) = none ∧
      findBestPool oldStructurePoolEnv pairPoolConfig =
        some { poolId := some "0xapt", poolType := none, tokenA := some "0x1",
               tokenB := some "USDT", tvl := 0 } := by
  refine ⟨fun _ _ _ _ => rfl, rfl, rfl, rfl, rfl, by decide, by decide, ?_⟩
  rfl

/-! ## C18: validation of the private key -/

theorem strip_hex_key_iff (l r : List Char) :
    ((if ['0', 'x'].isPrefixOf l then l.drop 2 else l) = r ∧ r.length = 64 ∧
        r.all isHexChar = true) ↔
      ((l = r ∨ l = '0' :: 'x' :: r) ∧ r.length = 64 ∧ ∀ c ∈ r, isHexChar c = true) := by
  constructor
  · rintro ⟨h1, h2, h3⟩
    refine ⟨?_, h2, fun c hc => List.all_eq_true.mp h3 c hc⟩
    by_cases hp : ['0', 'x'].isPrefixOf l = true
    · rw [if_pos hp] at h1
      obtain ⟨t, ht⟩ := List.isPrefixOf_iff_prefix.mp hp
      right
      rw [← ht] at h1 ⊢
      simp at h1
      simp [h1]
    · rw [if_neg hp] at h1
      exact Or.inl h1
  · rintro ⟨h1 | h1, h2, h3⟩
    · refine ⟨?_, h2, List.all_eq_true.mpr h3⟩
      have hp : ¬['0', 'x'].isPrefixOf l = true := by
        intro hp
        obtain ⟨t, ht⟩ := List.isPrefixOf_iff_prefix.mp hp
        have hx : 'x' ∈ r := by
          rw [← h1, ← ht]
          simp
        have := h3 'x' hx
        revert this
        decide
      rw [if_neg hp, h1]
    · refine ⟨?_, h2, List.all_eq_true.mpr h3⟩
      subst h1
      simp

/-- C18. When the credential lookup finds no key, `loadPrivateKey` throws.
When it finds the string `k`, `loadPrivateKey` returns `r` if and only if
`k` is `r` or `0x` followed by `r`, and `r` consists of exactly 64
hexadecimal characters; in every other case it throws. -/
theorem loadPrivateKey_succeeds_iff (fs : FileSystem) (cfg : KeyConfig) :
    (findPrivateKey fs cfg = none → loadPrivateKey fs cfg = none) ∧
      (∀ k, findPrivateKey fs cfg = some k →
        ∀ r, loadPrivateKey fs cfg = some r ↔
          ((k = r ∨ k = "0x" ++ r) ∧ r.length = 64 ∧ ∀ c ∈ r.toList, isHexChar c = true)) := by
  constructor
  · intro h
    simp [loadPrivateKey, h]
  · intro k hk r
    have hlist := strip_hex_key_iff k.toList r.toList
    have hk1 : k = r ↔ k.toList = r.toList := String.ext_iff
    have hk2 : k = "0x" ++ r ↔ k.toList = '0' :: 'x' :: r.toList := by
      rw [String.ext_iff]
      rfl
    have hlen : r.length = r.toList.length := rfl
    rw [hk1, hk2, hlen, ← hlist]
    unfold loadPrivateKey
    simp only [hk]
    generalize hb : (if "0x".toList.isPrefixOf k.toList = true
      then String.mk (List.drop 2 k.toList) else k) = body
    have hbl : (if ['0', 'x'].isPrefixOf k.toList = true then List.drop 2 k.toList
        else k.toList) = body.toList := by
      rw [← hb]
      by_cases hp : ['0', 'x'].isPrefixOf k.toList = true
      · have hp2 : "0x".toList.isPrefixOf k.toList = true := hp
        rw [if_pos hp, if_pos hp2]
        rfl
      · have hp2 : ¬"0x".toList.isPrefixOf k.toList = true := hp
        rw [if_neg hp, if_neg hp2]
    rw [hbl]
    by_cases hempty : k = ""
    · rw [if_pos hempty]
      constructor
      · intro h
        cases h
      · rintro ⟨h1, h2, -⟩
        subst hempty
        have hbody : body = "" := by
          rw [← hb]
          rfl
        rw [hbody] at h1
        have hnil : r.toList = [] := h1.symm
        rw [hnil] at h2
        cases h2
    · rw [if_neg hempty]
      constructor
      · intro h
        by_cases hl : body.length ≠ 64
        · rw [if_pos hl] at h
          cases h
        · rw [if_neg hl] at h
          by_cases hh : (!isHexString body) = true
          · rw [if_pos hh] at h
            cases h
          · rw [if_neg hh] at h
            injection h with h
            subst h
            have hhex : isHexString body = true := by
              cases hv : isHexString body
              · rw [hv] at hh
                exact absurd rfl hh
              · rfl
            unfold isHexString at hhex
            exact ⟨rfl, not_not.mp hl, (Bool.and_eq_true _ _ ▸ hhex).2⟩
      · rintro ⟨h1, h2, h3⟩
        have hr : body = r := String.ext h1
        subst hr
        have hl : ¬body.length ≠ 64 := not_not.mpr h2
        have hne : body.toList.isEmpty = false := by
          cases hd : body.toList with
          | nil =>
            rw [hd] at h2
            cases h2
          | cons a t => rfl
        have hhex : ¬(!isHexString body) = true := by
          unfold isHexString
          rw [hne, h3]
          decide
        rw [if_neg hl, if_neg hhex]

theorem loadPrivateKey_succeeds_iff_witness :
    findPrivateKey emptyFileSystem exampleKeyConfig =
        some "0x0123456789abcdef0123456789ABCDEF0123456789abcdef0123456789ABCDEF" ∧
      loadPrivateKey emptyFileSystem exampleKeyConfig =
        some "0123456789abcdef0123456789ABCDEF0123456789abcdef0123456789ABCDEF" := by
  have hk : findPrivateKey emptyFileSystem exampleKeyConfig =
      some "0x0123456789abcdef0123456789ABCDEF0123456789abcdef0123456789ABCDEF" := by decide
  refine ⟨hk, ?_⟩
  exact ((loadPrivateKey_succeeds_iff emptyFileSystem exampleKeyConfig).2 _ hk _).mpr
    ⟨Or.inr (by decide), by decide, by decide⟩

end TappSwap
